import Mathlib

/-!
Verification development for the oid4vc-ts library (oauth2 + oid4vci packages).

The TypeScript sources are shallowly embedded:
pure functions become Lean functions, network calls become explicit
outcome parameters, JSON values become the `Json` inductive below, and
valibot schemas become `Json`-transforming parsers that mirror the
loose-object semantics of the source (unknown entries pass through).
JavaScript truthiness on strings (the empty string is falsy) is modelled
explicitly wherever the source branches on it.
-/

namespace Oid4vc

/-- JSON values, the input domain of the wire-level validators.
Numbers are modelled as integers (no claim involves fractional numbers). -/
inductive Json where
  | null
  | bool (b : Bool)
  | num (n : Int)
  | str (s : String)
  | arr (elems : List Json)
  | obj (fields : List (String × Json))

/-- First value bound to key `k`, as JavaScript property lookup on the
objects produced by JSON parsing. -/
def lookupField (fields : List (String × Json)) (k : String) : Option Json :=
  match fields with
  | [] => none
  | (k', v) :: rest => if k' = k then some v else lookupField rest k

/-- JavaScript object spread / property assignment: overwrite the value in
place when the key exists, append otherwise. -/
def objSet (fields : List (String × Json)) (k : String) (v : Json) :
    List (String × Json) :=
  match fields with
  | [] => [(k, v)]
  | (k', v') :: rest =>
    if k' = k then (k, v) :: rest else (k', v') :: objSet rest k v

/-- Remove every binding of key `k` (JavaScript rest-destructuring). -/
def objRemove (fields : List (String × Json)) (k : String) :
    List (String × Json) :=
  fields.filter (fun kv => decide (¬ kv.1 = k))

/-- Entries whose key is not in `ks` (the unknown entries kept by a
valibot loose object). -/
def unknownFields (fields : List (String × Json)) (ks : List String) :
    List (String × Json) :=
  fields.filter (fun kv => decide (¬ kv.1 ∈ ks))

/-- JavaScript string truthiness: an optional string is truthy exactly
when it is present and non-empty. -/
def truthyStr (s : Option String) : Bool :=
  match s with
  | none => false
  | some s => decide (¬ s = "")

/-! ## application/x-www-form-urlencoded serialization (URLSearchParams) -/

/-- Characters left unescaped by `application/x-www-form-urlencoded`
serialization (the serializer behind URLSearchParams.toString). -/
def formUrlSafe (c : Char) : Bool :=
  c.isAlphanum || decide (c = '*') || decide (c = '-') || decide (c = '.') || decide (c = '_')

def hexDigit (n : Nat) : Char :=
  if n < 10 then Char.ofNat (48 + n) else Char.ofNat (55 + n)

def percentByte (b : Nat) : List Char :=
  ['%', hexDigit (b / 16), hexDigit (b % 16)]

/-- UTF-8 bytes of a character (as natural numbers below 256). -/
def utf8Bytes (c : Char) : List Nat :=
  let n := c.toNat
  if n < 128 then [n]
  else if n < 2048 then [192 + n / 64, 128 + n % 64]
  else if n < 65536 then [224 + n / 4096, 128 + (n / 64) % 64, 128 + n % 64]
  else [240 + n / 262144, 128 + (n / 4096) % 64, 128 + (n / 64) % 64, 128 + n % 64]

def formUrlEncodeChar (c : Char) : List Char :=
  if c = ' ' then ['+']
  else if formUrlSafe c then [c]
  else (utf8Bytes c).flatMap percentByte

/-- Percent-encode a string per `application/x-www-form-urlencoded`. -/
def formUrlEncode (s : String) : String :=
  String.mk (s.data.flatMap formUrlEncodeChar)

/-- `URLSearchParams.toString`: `k=v` pairs joined by `&`, both sides
percent-encoded. -/
def searchParamsToString (ps : List (String × String)) : String :=
  String.intercalate "&" (ps.map (fun kv => formUrlEncode kv.1 ++ "=" ++ formUrlEncode kv.2))

/-- `objectToQueryParams` from the utils package: appends every entry
whose value is neither null nor undefined. Values are modelled as
optional strings; the object-valued branch of the source
(JSON.stringify) is not exercised by any modelled request. -/
def objectToQueryParams (object : List (String × Option String)) :
    List (String × String) :=
  object.filterMap (fun kv => kv.2.map (fun v => (kv.1, v)))

/-! ## Grant identifiers (v-grant-type.ts) -/

def preAuthorizedCodeGrantIdentifier : String :=
  "urn:ietf:params:oauth:grant-type:pre-authorized_code"

def authorizationCodeGrantIdentifier : String :=
  "authorization_code"

/-! ## Access token request parsing (parse-access-token-request.ts) -/

/-- The request headers, restricted to the only header the parser reads:
the value of the DPoP header when present. -/
structure RequestHeaders where
  dpop : Option String
deriving DecidableEq

/-- Modelled from the spec: the vAccessTokenRequest schema file is not
among the sources. Per section 4.6 the body schema is validated first and
the grant dispatch then handles an unknown or missing grant_type, so the
schema is a loose object whose known fields are all optional strings.
The field written pre-authorized_code in the source is `preAuthorizedCode`. -/
structure AccessTokenRequest where
  grant_type : Option String
  preAuthorizedCode : Option String
  code : Option String
  tx_code : Option String
  code_verifier : Option String
deriving DecidableEq

/-- Read an optional string field: absent is fine, a present non-string
value fails the schema. -/
def optStringField (fields : List (String × Json)) (k : String) :
    Option (Option String) :=
  match lookupField fields k with
  | none => some none
  | some (.str s) => some (some s)
  | some _ => none

/-- Modelled from the spec: validation of the access token request body
(section 4.6, first bullet). Fails when the body is not an object or a
known field has a non-string value. -/
def vAccessTokenRequest (j : Json) : Option AccessTokenRequest :=
  match j with
  | .obj fields =>
    match optStringField fields "grant_type",
        optStringField fields "pre-authorized_code",
        optStringField fields "code",
        optStringField fields "tx_code",
        optStringField fields "code_verifier" with
    | some gt, some pac, some c, some txc, some cv => some ⟨gt, pac, c, txc, cv⟩
    | _, _, _, _, _ => none
  | _ => none

/-- The structured error response carried by Oauth2ServerErrorResponseError. -/
structure Oauth2ServerErrorResponse where
  error : String
  error_description : Option String
deriving DecidableEq

def invalidRequestValidationError : Oauth2ServerErrorResponse :=
  ⟨"invalid_request", some "Error occured during validation of authorization request."⟩

def missingPreAuthorizedCodeError : Oauth2ServerErrorResponse :=
  ⟨"invalid_request", some "Missing required pre-authorized_code for the pre-authorized code grant type"⟩

def missingCodeError : Oauth2ServerErrorResponse :=
  ⟨"invalid_request", some "Missing required code for grant type authorization_code"⟩

def unsupportedGrantTypeError : Oauth2ServerErrorResponse :=
  ⟨"invalid_grant", some "The grant type is not supported"⟩

def invalidDpopProofError : Oauth2ServerErrorResponse :=
  ⟨"invalid_dpop_proof", some "Request contains a DPoP header, but the value is not a valid DPoP jwt"⟩

/-- The grant specific properties extracted by parseAccessTokenRequest. -/
inductive ParsedGrant where
  | preAuthorizedCode (preAuthorizedCode : String) (txCode : Option String)
  | authorizationCode (code : String)
deriving DecidableEq

/-- Split a character list at every dot (kernel-reducible replacement
for String.splitOn applied to the single-character separator). -/
def splitDotAux : List Char → List Char → List String
  | [], acc => [String.mk acc.reverse]
  | c :: rest, acc =>
    if c = '.' then String.mk acc.reverse :: splitDotAux rest []
    else splitDotAux rest (c :: acc)

/-- Modelled from the spec: compact JWT shape check used when extracting
the DPoP header (section 4.6, last bullet: validate JWT shape only, not
the signature). Three dot separated segments with non-empty header and
payload parts. -/
def isCompactJwtShape (s : String) : Bool :=
  match splitDotAux s.data [] with
  | [h, p, _] => decide (¬ h = "") && decide (¬ p = "")
  | _ => false

/-- Result of extractDpopJwtFromHeaders. -/
inductive ExtractDpopResult where
  | valid (dpopJwt : Option String)
  | invalid
deriving DecidableEq

/-- Modelled from the spec: extractDpopJwtFromHeaders (dpop.ts is not
among the sources). Absent header is valid with no jwt; a present header
is valid exactly when it has compact JWT shape. -/
def extractDpopJwtFromHeaders (headers : RequestHeaders) : ExtractDpopResult :=
  match headers.dpop with
  | none => .valid none
  | some s => if isCompactJwtShape s then .valid (some s) else .invalid

/-- Grant dispatch of parseAccessTokenRequest (source lines 71-104):
JavaScript truthiness makes an empty string count as a missing
parameter. -/
def parseGrant (accessTokenRequest : AccessTokenRequest) :
    Except Oauth2ServerErrorResponse ParsedGrant :=
  if accessTokenRequest.grant_type = some preAuthorizedCodeGrantIdentifier then
    match accessTokenRequest.preAuthorizedCode with
    | none => .error missingPreAuthorizedCodeError
    | some pac =>
      if pac = "" then .error missingPreAuthorizedCodeError
      else .ok (.preAuthorizedCode pac accessTokenRequest.tx_code)
  else if accessTokenRequest.grant_type = some authorizationCodeGrantIdentifier then
    match accessTokenRequest.code with
    | none => .error missingCodeError
    | some c =>
      if c = "" then .error missingCodeError
      else .ok (.authorizationCode c)
  else .error unsupportedGrantTypeError

/-- Result of parseAccessTokenRequest on success. -/
structure ParseAccessTokenRequestResult where
  accessTokenRequest : AccessTokenRequest
  grant : ParsedGrant
  dpopJwt : Option String
  pkceCodeVerifier : Option String
deriving DecidableEq

/-- parseAccessTokenRequest: schema validation, grant dispatch, then DPoP
header extraction, throwing a structured Oauth2ServerErrorResponseError
at each failure (the Except error component). -/
def parseAccessTokenRequest (request : RequestHeaders)
    (accessTokenRequestBody : Json) :
    Except Oauth2ServerErrorResponse ParseAccessTokenRequestResult :=
  match vAccessTokenRequest accessTokenRequestBody with
  | none => .error invalidRequestValidationError
  | some accessTokenRequest =>
    match parseGrant accessTokenRequest with
    | .error e => .error e
    | .ok grant =>
      match extractDpopJwtFromHeaders request with
      | .invalid => .error invalidDpopProofError
      | .valid dpopJwt =>
        .ok ⟨accessTokenRequest, grant, dpopJwt, accessTokenRequest.code_verifier⟩

/-! ## Access token creation (Oauth2AuthorizationServer.createAccessToken) -/

/-- Modelled from the spec: the access token response body of
createAccessTokenResponse (section 4.6): access_token, token_type,
expires_in, optional c_nonce and c_nonce_expires_in. -/
structure AccessTokenResponse where
  access_token : String
  token_type : String
  expires_in : Int
  c_nonce : Option String
  c_nonce_expires_in : Option Int
deriving DecidableEq

/-- The options of Oauth2AuthorizationServer.createAccessToken that
influence the response. The signed JWT produced by the signJwt callback
through createAccessTokenJwt is passed in as `signedAccessTokenJwt`
(the callback surface is injected, section 4.1). The DPoP JWK is an
opaque JSON value; a JavaScript object is always truthy. -/
structure CreateAccessTokenOptions where
  expiresInSeconds : Int
  dpopJwk : Option Json
  cNonce : Option String
  cNonceExpiresIn : Option Int

/-- Modelled from the spec: createAccessTokenResponse assembles the
response body from its arguments (section 4.6). -/
def createAccessTokenResponse (accessToken : String) (expiresInSeconds : Int)
    (tokenType : String) (cNonce : Option String) (cNonceExpiresIn : Option Int) :
    AccessTokenResponse :=
  ⟨accessToken, tokenType, expiresInSeconds, cNonce, cNonceExpiresIn⟩

/-- Oauth2AuthorizationServer.createAccessToken: mints the JWT (injected
here as the already signed `signedAccessTokenJwt`) and builds the
response with tokenType DPoP exactly when a dpopJwk option was given
(source line: tokenType: options.dpopJwk ? DPoP : Bearer). -/
def createAccessToken (signedAccessTokenJwt : String)
    (options : CreateAccessTokenOptions) : AccessTokenResponse :=
  createAccessTokenResponse signedAccessTokenJwt options.expiresInSeconds
    (if options.dpopJwk.isSome then "DPoP" else "Bearer")
    options.cNonce options.cNonceExpiresIn

/-! ## OAuth2 client (Oauth2Client.ts) -/

/-- The authorization server metadata fields read by the modelled client
paths (spec section 3; the metadata schema file is not among the
sources). -/
structure AuthorizationServerMetadata where
  issuer : String
  authorization_endpoint : String
  token_endpoint : String
  authorization_challenge_endpoint : Option String := none
  pushed_authorization_request_endpoint : Option String := none
  require_pushed_authorization_requests : Option Bool := none
  code_challenge_methods_supported : Option (List String) := none
  dpop_signing_alg_values_supported : Option (List String) := none
deriving DecidableEq

/-- A PKCE pair as returned by createPkce. -/
structure Pkce where
  codeVerifier : String
  codeChallenge : String
  codeChallengeMethod : String
deriving DecidableEq

/-- The injected callback surface of the client, restricted to what the
modelled paths consume (section 4.1): base64url(sha256(data)) and the
base64url encoding of 32 generated random bytes used as a code
verifier. -/
structure ClientCallbacks where
  hashS256Base64Url : String → String
  generatedCodeVerifier : String

/-- Modelled from the spec: createPkce (pkce.ts is not among the
sources; section 4.4 PKCE rules): use S256 whenever advertised, plain
only if advertised, otherwise no PKCE; a caller supplied code verifier
is used as is. -/
def createPkce (callbacks : ClientCallbacks)
    (allowedCodeChallengeMethods : List String) (codeVerifier : Option String) :
    Option Pkce :=
  let v := codeVerifier.getD callbacks.generatedCodeVerifier
  if "S256" ∈ allowedCodeChallengeMethods then
    some ⟨v, callbacks.hashS256Base64Url v, "S256"⟩
  else if "plain" ∈ allowedCodeChallengeMethods then
    some ⟨v, v, "plain"⟩
  else none

/-- The PKCE value computed at the start of initiateAuthorization: only
when the metadata advertises code_challenge_methods_supported. -/
def initiatePkce (callbacks : ClientCallbacks)
    (metadata : AuthorizationServerMetadata) (pkceCodeVerifier : Option String) :
    Option Pkce :=
  metadata.code_challenge_methods_supported.bind
    (fun allowed => createPkce callbacks allowed pkceCodeVerifier)

/-- The authorization challenge error response envelope (spec section 6:
request_uri, presentation and auth_session extensions on the error
envelope). -/
structure AuthorizationChallengeErrorResponse where
  error : String
  error_description : Option String := none
  request_uri : Option String := none
  presentation : Option String := none
  auth_session : Option String := none
deriving DecidableEq

/-- A successful authorization challenge response (spec section 4.4:
200 OK carrying an authorization_code). -/
structure AuthorizationChallengeSuccessResponse where
  authorization_code : String
deriving DecidableEq

/-- The errors thrown on the modelled client paths: the specialized
Oauth2ClientAuthorizationChallengeError carrying its error response, the
local Oauth2Error, and any other thrown error. -/
inductive ClientError where
  | authorizationChallenge (errorResponse : AuthorizationChallengeErrorResponse)
  | oauth2 (message : String)
  | other (message : String)
deriving DecidableEq

/-- Result of createAuthorizationRequestUrl and of
Oauth2Client.initiateAuthorization. -/
structure AuthorizationRequestUrlResult where
  authorizationRequestUrl : String
  pkce : Option Pkce
deriving DecidableEq

/-- Modelled from the spec: createAuthorizationRequestUrl
(create-authorization-request.ts is not among the sources; section 4.4
steps 2 and 3): pushed authorization request when required or
advertised, otherwise a plain authorization request URL. The network
outcome of the PAR request (its returned request_uri) is passed in as
`parOutcome`; plain query parameter order follows the repository
tests. -/
def createAuthorizationRequestUrl (callbacks : ClientCallbacks)
    (metadata : AuthorizationServerMetadata) (clientId : String)
    (redirectUri scope : Option String) (pkceCodeVerifier : Option String)
    (parOutcome : Except ClientError String) :
    Except ClientError AuthorizationRequestUrlResult :=
  let pkce := initiatePkce callbacks metadata pkceCodeVerifier
  if metadata.require_pushed_authorization_requests = some true ∨
      metadata.pushed_authorization_request_endpoint.isSome = true then
    match parOutcome with
    | .error e => .error e
    | .ok requestUri =>
      .ok ⟨metadata.authorization_endpoint ++ "?" ++
        searchParamsToString (objectToQueryParams
          [("request_uri", some requestUri), ("client_id", some clientId)]), pkce⟩
  else
    .ok ⟨metadata.authorization_endpoint ++ "?" ++
      searchParamsToString (objectToQueryParams
        [("response_type", some "code"), ("client_id", some clientId),
          ("redirect_uri", redirectUri), ("scope", scope),
          ("code_challenge", pkce.map Pkce.codeChallenge),
          ("code_challenge_method", pkce.map Pkce.codeChallengeMethod)]), pkce⟩

/-- Oauth2Client.initiateAuthorization (Oauth2Client.ts lines 66-117).
The network outcome of the single authorization challenge request is
`challengeOutcome`. Note that the source discards a successful challenge
response (the try block ignores its result) and falls through to
building the authorization request URL, and that a redirect_to_web error
whose request_uri is absent or empty (JavaScript falsy) also falls
through. -/
def Oauth2Client.initiateAuthorization (callbacks : ClientCallbacks)
    (metadata : AuthorizationServerMetadata) (clientId : String)
    (redirectUri scope pkceCodeVerifier : Option String)
    (challengeOutcome : Except ClientError AuthorizationChallengeSuccessResponse)
    (parOutcome : Except ClientError String) :
    Except ClientError AuthorizationRequestUrlResult :=
  let pkce := initiatePkce callbacks metadata pkceCodeVerifier
  let fallThrough := createAuthorizationRequestUrl callbacks metadata clientId
    redirectUri scope (pkce.map Pkce.codeVerifier) parOutcome
  match metadata.authorization_challenge_endpoint with
  | none => fallThrough
  | some _ =>
    match challengeOutcome with
    | .ok _ => fallThrough
    | .error e =>
      match e with
      | .authorizationChallenge errorResponse =>
        if errorResponse.error = "redirect_to_web" then
          match errorResponse.request_uri with
          | some requestUri =>
            if requestUri = "" then fallThrough
            else
              .ok ⟨metadata.authorization_endpoint ++ "?" ++
                searchParamsToString (objectToQueryParams
                  [("request_uri", some requestUri), ("client_id", some clientId)]),
                pkce⟩
          | none => fallThrough
        else .error e
      | _ => .error e

/-! ## Oid4vci client (Oid4vciClient.ts) -/

/-- A tx_code descriptor of the pre-authorized code grant (draft 14). -/
structure TxCode where
  input_mode : Option String := none
  length : Option Int := none
  description : Option String := none
deriving DecidableEq

/-- The authorization_code grant of a credential offer. -/
structure AuthorizationCodeGrant where
  issuer_state : Option String := none
  authorization_server : Option String := none
deriving DecidableEq

/-- The pre-authorized code grant of a credential offer; the first field
is written pre-authorized_code in the source. -/
structure PreAuthorizedCodeGrant where
  preAuthorizedCode : String
  tx_code : Option TxCode := none
  authorization_server : Option String := none
deriving DecidableEq

/-- The grants of a credential offer; the second field is keyed by the
pre-authorized code grant urn identifier in the source. -/
structure CredentialOfferGrants where
  authorization_code : Option AuthorizationCodeGrant := none
  preAuthorizedCode : Option PreAuthorizedCodeGrant := none
deriving DecidableEq

/-- A validated draft 14 credential offer object as consumed by the
Oid4vci client methods. -/
structure CredentialOfferObject where
  credential_issuer : String
  credential_configuration_ids : List String
  grants : Option CredentialOfferGrants := none
deriving DecidableEq

/-- The resolved issuer metadata handed to the client methods. -/
structure IssuerMetadataResult where
  credentialIssuer : String
  authorizationServers : List AuthorizationServerMetadata
deriving DecidableEq

/-- Modelled from the spec: determineAuthorizationServerForCredentialOffer
(credential-offer.ts is not among the sources; section 4.3): a grant
pinned authorization server must be listed in the issuer metadata;
otherwise a single known server is used and multiple are ambiguous. -/
def determineAuthorizationServerForCredentialOffer
    (issuerMetadata : IssuerMetadataResult)
    (grantAuthorizationServer : Option String) : Except ClientError String :=
  match grantAuthorizationServer with
  | some s =>
    if s ∈ issuerMetadata.authorizationServers.map AuthorizationServerMetadata.issuer
    then .ok s
    else .error (.oauth2 "Unknown authorization server for the credential offer grant")
  | none =>
    match issuerMetadata.authorizationServers with
    | [m] => .ok m.issuer
    | _ => .error (.oauth2 "Ambiguous authorization server for the credential offer")

/-- Modelled from the spec: getAuthorizationServerMetadataFromList (not
among the sources): the metadata whose issuer equals the given
identifier. -/
def getAuthorizationServerMetadataFromList
    (authorizationServers : List AuthorizationServerMetadata) (issuer : String) :
    Except ClientError AuthorizationServerMetadata :=
  match authorizationServers.find? (fun m => decide (m.issuer = issuer)) with
  | some m => .ok m
  | none => .error (.oauth2 "Authorization server metadata not found")

/-- The result union of Oid4vciClient.initiateAuthorization: the
AuthorizationFlow enum of the source has exactly the two variants
Oauth2Redirect and PresentationDuringIssuance. -/
inductive Oid4vciInitiateAuthorizationResult where
  | oauth2Redirect (authorizationRequestUrl : String) (pkce : Option Pkce)
      (authorizationServer : String)
  | presentationDuringIssuance (oid4vpRequestUrl : String) (authSession : String)
      (authorizationServer : String)
deriving DecidableEq

/-- Oid4vciClient.initiateAuthorization (Oid4vciClient.ts lines 131-202):
requires the authorization_code grant, resolves the authorization
server, delegates to Oauth2Client.initiateAuthorization and wraps a
successful result as the Oauth2Redirect flow; a thrown
Oauth2ClientAuthorizationChallengeError with error
insufficient_authorization and truthy presentation and auth_session
becomes the PresentationDuringIssuance flow, every other error is
rethrown. -/
def Oid4vciClient.initiateAuthorization (callbacks : ClientCallbacks)
    (credentialOffer : CredentialOfferObject)
    (issuerMetadata : IssuerMetadataResult) (clientId : String)
    (redirectUri scope pkceCodeVerifier : Option String)
    (challengeOutcome : Except ClientError AuthorizationChallengeSuccessResponse)
    (parOutcome : Except ClientError String) :
    Except ClientError Oid4vciInitiateAuthorizationResult :=
  match credentialOffer.grants.bind CredentialOfferGrants.authorization_code with
  | none => .error (.oauth2 "Provided credential offer does not include the authorization_code grant.")
  | some authorizationCodeGrant =>
    match determineAuthorizationServerForCredentialOffer issuerMetadata
        authorizationCodeGrant.authorization_server with
    | .error e => .error e
    | .ok authorizationServer =>
      match getAuthorizationServerMetadataFromList
          issuerMetadata.authorizationServers authorizationServer with
      | .error e => .error e
      | .ok authorizationServerMetadata =>
        match Oauth2Client.initiateAuthorization callbacks
            authorizationServerMetadata clientId redirectUri scope
            pkceCodeVerifier challengeOutcome parOutcome with
        | .ok result =>
          .ok (.oauth2Redirect result.authorizationRequestUrl result.pkce
            authorizationServerMetadata.issuer)
        | .error e =>
          match e with
          | .authorizationChallenge errorResponse =>
            if errorResponse.error = "insufficient_authorization" then
              match errorResponse.presentation, errorResponse.auth_session with
              | some presentation, some authSession =>
                if presentation = "" ∨ authSession = "" then .error e
                else
                  .ok (.presentationDuringIssuance presentation authSession
                    authorizationServerMetadata.issuer)
              | _, _ => .error e
            else .error e
          | _ => .error e

/-! ## Pre-authorized code token request (C8, C10) -/

/-- Modelled from the spec: the form encoded token request body built by
retrievePreAuthorizedCodeAccessToken (retrieve-access-token.ts is not
among the sources; section 4.5: grant_type, pre-authorized_code,
optional tx_code). The entry order, pre-authorized_code before
grant_type with the additional payload (tx_code) appended last, is fixed
by the repository token endpoint test assertions (client.test.ts). -/
def tokenRequestBodyPreAuthorized (preAuthorizedCode : String)
    (txCode : Option String) : String :=
  searchParamsToString (objectToQueryParams
    [("pre-authorized_code", some preAuthorizedCode),
      ("grant_type", some preAuthorizedCodeGrantIdentifier),
      ("tx_code", txCode)])

/-- The token request the client is about to send when
retrievePreAuthorizedCodeAccessTokenFromOffer passes its guards. -/
structure PreAuthorizedTokenRequest where
  authorizationServer : String
  tokenEndpoint : String
  preAuthorizedCode : String
  txCode : Option String
  body : String
deriving DecidableEq

/-- Oid4vciClient.retrievePreAuthorizedCodeAccessTokenFromOffer
(Oid4vciClient.ts lines 252-300): requires the pre-authorized code
grant; when the grant declares a tx_code descriptor and the txCode
argument is JavaScript falsy (absent or empty) it throws; otherwise it
resolves the authorization server and issues the token request, returned
here as its description. -/
def Oid4vciClient.retrievePreAuthorizedCodeAccessTokenFromOffer
    (credentialOffer : CredentialOfferObject)
    (issuerMetadata : IssuerMetadataResult) (txCode : Option String) :
    Except ClientError PreAuthorizedTokenRequest :=
  match credentialOffer.grants.bind CredentialOfferGrants.preAuthorizedCode with
  | none => .error (.oauth2 "The credential offer does not contain the pre-authorized code grant.")
  | some grant =>
    if grant.tx_code.isSome = true ∧ truthyStr txCode = false then
      .error (.oauth2 "Retrieving access token requires a tx_code in the request, but the txCode parameter was not provided.")
    else
      match determineAuthorizationServerForCredentialOffer issuerMetadata
          grant.authorization_server with
      | .error e => .error e
      | .ok authorizationServer =>
        match getAuthorizationServerMetadataFromList
            issuerMetadata.authorizationServers authorizationServer with
        | .error e => .error e
        | .ok authorizationServerMetadata =>
          .ok ⟨authorizationServer, authorizationServerMetadata.token_endpoint,
            grant.preAuthorizedCode, txCode,
            tokenRequestBodyPreAuthorized grant.preAuthorizedCode txCode⟩

/-! ## Valibot loose-object machinery over Json

A valibot schema is embedded as a function Json to Option Json: the
parsed (and possibly transformed) output on success. A loose object
parses its declared entries and passes every unknown entry through to
the output unchanged; the output carries the declared entries that are
present in schema order followed by the unknown entries in input
order. -/

/-- A required entry: the field must be present and parse. -/
def requiredField (fields : List (String × Json)) (k : String)
    (p : Json → Option Json) : Option Json :=
  (lookupField fields k).bind p

/-- An optional entry: an absent field stays absent, a present field
must parse. -/
def optionalField (fields : List (String × Json)) (k : String)
    (p : Json → Option Json) : Option (Option Json) :=
  match lookupField fields k with
  | none => some none
  | some v => (p v).map some

/-- An optional entry with a default (valibot v.optional(schema, d)):
the default replaces an absent field. -/
def optionalFieldD (fields : List (String × Json)) (k : String)
    (p : Json → Option Json) (d : Json) : Option (Option Json) :=
  match lookupField fields k with
  | none => some (some d)
  | some v => (p v).map some

/-- The declared entries that are present, in schema order. -/
def presentFields (entries : List (String × Option Json)) :
    List (String × Json) :=
  entries.filterMap (fun kv => kv.2.map (fun v => (kv.1, v)))

/-- v.string(): identity on strings. -/
def vStringJ : Json → Option Json
  | .str s => some (.str s)
  | _ => none

/-- v.boolean(): identity on booleans. -/
def vBooleanJ : Json → Option Json
  | .bool b => some (.bool b)
  | _ => none

/-- v.pipe(v.number(), v.integer()): identity on (integral) numbers. -/
def vIntegerJ : Json → Option Json
  | .num n => some (.num n)
  | _ => none

/-- v.literal(s): identity on exactly the string s. -/
def vLiteralJ (s : String) : Json → Option Json
  | .str t => if t = s then some (.str t) else none
  | _ => none

/-- Whether the first list of characters leads the second one
(kernel-reducible replacement for String.startsWith). -/
def charsLeadWith : List Char → List Char → Bool
  | [], _ => true
  | _ :: _, [] => false
  | p :: ps, c :: cs => if p = c then charsLeadWith ps cs else false

/-- Modelled from the spec: vCredentialIssuerIdentifier and
vAuthorizationServerIdentifier (their files are not among the sources)
require an HTTPS URL string (spec section 3). -/
def vHttpsUrlJ : Json → Option Json
  | .str s => if charsLeadWith "https://".data s.data = true then some (.str s) else none
  | _ => none

/-- Parse every element of an array (the semantics of v.array). -/
def parseAll (p : Json → Option Json) : List Json → Option (List Json)
  | [] => some []
  | x :: xs => (p x).bind fun y => (parseAll p xs).map fun ys => y :: ys

/-- v.array(v.string()): identity on arrays of strings. -/
def vStringArrayJ : Json → Option Json
  | .arr elems => (parseAll vStringJ elems).map Json.arr
  | _ => none

/-- v.pipe(v.string(), v.maxLength(300)). -/
def vStringMax300J : Json → Option Json
  | .str s => if s.length ≤ 300 then some (.str s) else none
  | _ => none

/-- The tx_code input_mode union of the literals numeric and text. -/
def vInputModeJ : Json → Option Json
  | .str s => if s = "numeric" ∨ s = "text" then some (.str s) else none
  | _ => none

/-! ## Credential offer schemas (v-credential-offer.ts) -/

/-- The tx_code loose object of the draft 14 pre-authorized grant:
input_mode defaults to numeric when absent. -/
def vTxCodeJ (j : Json) : Option Json :=
  match j with
  | .obj fields =>
    (optionalFieldD fields "input_mode" vInputModeJ (.str "numeric")).bind fun im =>
    (optionalField fields "length" vIntegerJ).bind fun len =>
    (optionalField fields "description" vStringMax300J).bind fun desc =>
    some (.obj (presentFields
      [("input_mode", im), ("length", len), ("description", desc)] ++
      unknownFields fields ["input_mode", "length", "description"]))
  | _ => none

/-- The authorization_code grant loose object (shared by draft 11 and
draft 14 offers in the source). -/
def vAuthorizationCodeGrantJ (j : Json) : Option Json :=
  match j with
  | .obj fields =>
    (optionalField fields "issuer_state" vStringJ).bind fun ist =>
    (optionalField fields "authorization_server" vHttpsUrlJ).bind fun asrv =>
    some (.obj (presentFields
      [("issuer_state", ist), ("authorization_server", asrv)] ++
      unknownFields fields ["issuer_state", "authorization_server"]))
  | _ => none

/-- The draft 14 pre-authorized code grant loose object. -/
def vPreAuthorizedGrantJ (j : Json) : Option Json :=
  match j with
  | .obj fields =>
    (requiredField fields "pre-authorized_code" vStringJ).bind fun pac =>
    (optionalField fields "tx_code" vTxCodeJ).bind fun txc =>
    (optionalField fields "authorization_server" vHttpsUrlJ).bind fun asrv =>
    some (.obj (presentFields
      [("pre-authorized_code", some pac), ("tx_code", txc),
        ("authorization_server", asrv)] ++
      unknownFields fields ["pre-authorized_code", "tx_code", "authorization_server"]))
  | _ => none

/-- vCredentialOfferGrants: the draft 14 grants loose object. -/
def vCredentialOfferGrantsJ (j : Json) : Option Json :=
  match j with
  | .obj fields =>
    (optionalField fields "authorization_code" vAuthorizationCodeGrantJ).bind fun ac =>
    (optionalField fields preAuthorizedCodeGrantIdentifier vPreAuthorizedGrantJ).bind fun pre =>
    some (.obj (presentFields
      [("authorization_code", ac), (preAuthorizedCodeGrantIdentifier, pre)] ++
      unknownFields fields ["authorization_code", preAuthorizedCodeGrantIdentifier]))
  | _ => none

/-- vCredentialOfferObjectDraft14 (v-credential-offer.ts lines 59-63). -/
def vCredentialOfferObjectDraft14J (j : Json) : Option Json :=
  match j with
  | .obj fields =>
    (requiredField fields "credential_issuer" vHttpsUrlJ).bind fun ci =>
    (requiredField fields "credential_configuration_ids" vStringArrayJ).bind fun ids =>
    (optionalField fields "grants" vCredentialOfferGrantsJ).bind fun grants =>
    some (.obj (presentFields
      [("credential_issuer", some ci), ("credential_configuration_ids", some ids),
        ("grants", grants)] ++
      unknownFields fields ["credential_issuer", "credential_configuration_ids", "grants"]))
  | _ => none

/-- The draft 11 pre-authorized code grant loose object (lines 76-81):
pre-authorized_code required, user_pin_required an optional boolean. -/
def vPreAuthorizedGrantDraft11J (j : Json) : Option Json :=
  match j with
  | .obj fields =>
    (requiredField fields "pre-authorized_code" vStringJ).bind fun pac =>
    (optionalField fields "user_pin_required" vBooleanJ).bind fun pin =>
    some (.obj (presentFields
      [("pre-authorized_code", some pac), ("user_pin_required", pin)] ++
      unknownFields fields ["pre-authorized_code", "user_pin_required"]))
  | _ => none

/-- The draft 11 grants loose object (lines 71-83): the
authorization_code entry reuses the draft 14 sub schema. -/
def vCredentialOfferGrantsDraft11J (j : Json) : Option Json :=
  match j with
  | .obj fields =>
    (optionalField fields "authorization_code" vAuthorizationCodeGrantJ).bind fun ac =>
    (optionalField fields preAuthorizedCodeGrantIdentifier vPreAuthorizedGrantDraft11J).bind fun pre =>
    some (.obj (presentFields
      [("authorization_code", ac), (preAuthorizedCodeGrantIdentifier, pre)] ++
      unknownFields fields ["authorization_code", preAuthorizedCodeGrantIdentifier]))
  | _ => none

/-- The draft 11 offer loose object (lines 66-84, before the
transform). -/
def vCredentialOfferObjectDraft11SchemaJ (j : Json) : Option Json :=
  match j with
  | .obj fields =>
    (requiredField fields "credential_issuer" vHttpsUrlJ).bind fun ci =>
    (requiredField fields "credentials" vStringArrayJ).bind fun credentials =>
    (optionalField fields "grants" vCredentialOfferGrantsDraft11J).bind fun grants =>
    some (.obj (presentFields
      [("credential_issuer", some ci), ("credentials", some credentials),
        ("grants", grants)] ++
      unknownFields fields ["credential_issuer", "credentials", "grants"]))
  | _ => none

/-- JavaScript truthiness of the validated optional user_pin_required
entry: exactly the boolean true. -/
def userPinTruthy (v : Option Json) : Bool :=
  match v with
  | some (.bool true) => true
  | _ => false

/-- The draft 11 to draft 14 transform (v-credential-offer.ts lines
85-109), with JavaScript rest-destructuring, object spread and property
assignment semantics. -/
def credentialOfferDraft11To14Transform (j : Json) : Json :=
  match j with
  | .obj fields =>
    let credentials := (lookupField fields "credentials").getD .null
    let rest := objRemove (objRemove fields "credentials") "grants"
    let v14 := objSet rest "credential_configuration_ids" credentials
    match lookupField fields "grants" with
    | some (.obj gfields) =>
      let g1 :=
        match lookupField gfields preAuthorizedCodeGrantIdentifier with
        | some (.obj pfields) =>
          let restGrants := objRemove pfields "user_pin_required"
          let newPre :=
            if userPinTruthy (lookupField pfields "user_pin_required") = true then
              objSet restGrants "tx_code" (.obj [("input_mode", .str "text")])
            else restGrants
          objSet gfields preAuthorizedCodeGrantIdentifier (.obj newPre)
        | _ => gfields
      .obj (objSet v14 "grants" (.obj g1))
    | _ => .obj v14
  | _ => j

/-- vCredentialOfferObjectDraft11To14 (lines 66-112): the draft 11
schema, the transform, then validation against the draft 14 schema. -/
def vCredentialOfferObjectDraft11To14J (j : Json) : Option Json :=
  (vCredentialOfferObjectDraft11SchemaJ j).bind
    (fun m => vCredentialOfferObjectDraft14J (credentialOfferDraft11To14Transform m))

/-- vCredentialOfferObject (lines 114-119): the union that tries the
draft 14 schema first, then the draft 11 to 14 normalization. -/
def vCredentialOfferObjectJ (j : Json) : Option Json :=
  match vCredentialOfferObjectDraft14J j with
  | some out => some out
  | none => vCredentialOfferObjectDraft11To14J j

/-! ## Credential request proof type header (v-credential-request-proof-jwt.ts) -/

/-- The JWK schema: modelled from the spec as an arbitrary JSON object
(v-jwk.ts is not among the sources and no claim depends on the internal
JWK shape). -/
def vJwkJ : Json → Option Json
  | .obj fields => some (.obj fields)
  | _ => none

/-- JavaScript truthiness of the validated optional kid entry: the kid
parses as a string, and the empty string is falsy. -/
def kidTruthy (v : Option Json) : Bool :=
  match v with
  | some (.str s) => decide (¬ s = "")
  | _ => false

/-- vCredentialRequestJwtProofTypeHeader (lines 15-26): the vJwtHeader
entries with typ overridden to the literal openid4vci-proof+jwt and
key_attestation appended, refined by the two checks of the source:
jwk and kid must not both be defined, and a (truthy) trust_chain forces
kid to be JavaScript falsy (absent or empty). -/
def vCredentialRequestJwtProofTypeHeaderJ (j : Json) : Option Json :=
  match j with
  | .obj fields =>
    (requiredField fields "alg" vStringJ).bind fun alg =>
    (requiredField fields "typ" (vLiteralJ "openid4vci-proof+jwt")).bind fun typ =>
    (optionalField fields "kid" vStringJ).bind fun kid =>
    (optionalField fields "jwk" vJwkJ).bind fun jwk =>
    (optionalField fields "x5c" vStringArrayJ).bind fun x5c =>
    (optionalField fields "trust_chain" vStringArrayJ).bind fun trust_chain =>
    (optionalField fields "key_attestation" vStringJ).bind fun key_attestation =>
    if jwk.isSome = true ∧ kid.isSome = true then none
    else if trust_chain.isSome = true ∧ kidTruthy kid = true then none
    else some (.obj (presentFields
      [("alg", some alg), ("typ", some typ), ("kid", kid), ("jwk", jwk),
        ("x5c", x5c), ("trust_chain", trust_chain),
        ("key_attestation", key_attestation)] ++
      unknownFields fields
        ["alg", "typ", "kid", "jwk", "x5c", "trust_chain", "key_attestation"]))
  | _ => none

end Oid4vc

namespace Oid4vc

theorem formUrlEncode_grant_id :
    formUrlEncode preAuthorizedCodeGrantIdentifier =
      "urn%3Aietf%3Aparams%3Aoauth%3Agrant-type%3Apre-authorized_code" := by
  decide

/-! ### Lookup lemmas for the loose-object machinery -/

theorem lookupField_cons (k' : String) (v : Json) (rest : List (String × Json))
    (k : String) :
    lookupField ((k', v) :: rest) k =
      if k' = k then some v else lookupField rest k := rfl

theorem lookupField_filter_none (fields : List (String × Json))
    (p : String × Json → Bool) (k : String) (hp : ∀ v, p (k, v) = false) :
    lookupField (fields.filter p) k = none := by
  induction fields with
  | nil => rfl
  | cons kv rest ih =>
    obtain ⟨k', v⟩ := kv
    by_cases hkk : k' = k
    · subst hkk
      simp [List.filter_cons, hp v, ih]
    · cases hpv : p (k', v) with
      | false => simp [List.filter_cons, hpv, ih]
      | true => simp [List.filter_cons, hpv, lookupField, hkk, ih]

theorem lookupField_filter_keep (fields : List (String × Json))
    (p : String × Json → Bool) (k : String) (hp : ∀ v, p (k, v) = true) :
    lookupField (fields.filter p) k = lookupField fields k := by
  induction fields with
  | nil => rfl
  | cons kv rest ih =>
    obtain ⟨k', v⟩ := kv
    by_cases hkk : k' = k
    · subst hkk
      simp [List.filter_cons, hp v, lookupField]
    · cases hpv : p (k', v) with
      | false => simp [List.filter_cons, hpv, lookupField, hkk, ih]
      | true => simp [List.filter_cons, hpv, lookupField, hkk, ih]

theorem lookupField_unknown_mem (fields : List (String × Json))
    (ks : List String) (k : String) (hk : k ∈ ks) :
    lookupField (unknownFields fields ks) k = none := by
  apply lookupField_filter_none
  intro v
  simp [hk]

theorem lookupField_unknown_not_mem (fields : List (String × Json))
    (ks : List String) (k : String) (hk : ¬ k ∈ ks) :
    lookupField (unknownFields fields ks) k = lookupField fields k := by
  apply lookupField_filter_keep
  intro v
  simp [hk]

theorem lookupField_objRemove_self (fields : List (String × Json)) (k : String) :
    lookupField (objRemove fields k) k = none := by
  apply lookupField_filter_none
  intro v
  simp

theorem lookupField_objRemove_other (fields : List (String × Json))
    (k k2 : String) (h : ¬ k2 = k) :
    lookupField (objRemove fields k) k2 = lookupField fields k2 := by
  apply lookupField_filter_keep
  intro v
  simp [h]

theorem lookupField_objSet_self (fields : List (String × Json)) (k : String)
    (v : Json) :
    lookupField (objSet fields k v) k = some v := by
  induction fields with
  | nil => simp [objSet, lookupField]
  | cons kv rest ih =>
    obtain ⟨k', v'⟩ := kv
    by_cases h : k' = k
    · simp [objSet, h, lookupField]
    · simp [objSet, h, lookupField, ih]

theorem lookupField_objSet_other (fields : List (String × Json))
    (k k2 : String) (v : Json) (h : ¬ k = k2) :
    lookupField (objSet fields k v) k2 = lookupField fields k2 := by
  induction fields with
  | nil => simp [objSet, lookupField, h]
  | cons kv rest ih =>
    obtain ⟨k', v'⟩ := kv
    by_cases hk : k' = k
    · subst hk
      simp [objSet, lookupField, h]
    · simp [objSet, hk, lookupField, ih]

theorem presentFields_cons (e : String × Option Json)
    (es : List (String × Option Json)) :
    presentFields (e :: es) =
      match e.2 with
      | some v => (e.1, v) :: presentFields es
      | none => presentFields es := by
  obtain ⟨k, o⟩ := e
  cases o <;> simp [presentFields]

theorem lookupField_presentFields_skip (es : List (String × Option Json))
    (tail : List (String × Json)) (k : String) (h : ∀ e ∈ es, ¬ e.1 = k) :
    lookupField (presentFields es ++ tail) k = lookupField tail k := by
  induction es with
  | nil => simp [presentFields]
  | cons e es ih =>
    have he : ¬ e.1 = k := h e (by simp)
    have hes : ∀ e ∈ es, ¬ e.1 = k := fun e hme => h e (by simp [hme])
    rw [presentFields_cons]
    cases ho : e.2 with
    | none => exact ih hes
    | some v =>
      simp only [List.cons_append, lookupField_cons, if_neg he]
      exact ih hes

/-- The central output-lookup lemma: looking up a declared key in a
loose-object output yields exactly that entry's optional value. -/
theorem lookupField_out (A B : List (String × Option Json))
    (fields : List (String × Json)) (ks : List String) (k : String)
    (o : Option Json) (hA : ∀ e ∈ A, ¬ e.1 = k) (hB : ∀ e ∈ B, ¬ e.1 = k)
    (hk : k ∈ ks) :
    lookupField (presentFields (A ++ (k, o) :: B) ++ unknownFields fields ks) k
      = o := by
  rw [presentFields, List.filterMap_append, List.append_assoc]
  rw [show List.filterMap (fun kv => kv.2.map (fun v => (kv.1, v))) A = presentFields A from rfl]
  rw [lookupField_presentFields_skip A _ k hA]
  rw [show List.filterMap (fun kv => kv.2.map (fun v => (kv.1, v))) ((k, o) :: B) = presentFields ((k, o) :: B) from rfl]
  rw [presentFields_cons]
  cases o with
  | some v => simp [lookupField]
  | none =>
    rw [lookupField_presentFields_skip B _ k hB]
    exact lookupField_unknown_mem fields ks k hk

theorem unknownFields_append (l1 l2 : List (String × Json)) (ks : List String) :
    unknownFields (l1 ++ l2) ks = unknownFields l1 ks ++ unknownFields l2 ks := by
  simp [unknownFields, List.filter_append]

theorem unknownFields_presentFields_nil (es : List (String × Option Json))
    (ks : List String) (h : ∀ e ∈ es, e.1 ∈ ks) :
    unknownFields (presentFields es) ks = [] := by
  induction es with
  | nil => rfl
  | cons e es ih =>
    have he : e.1 ∈ ks := h e (by simp)
    have hes : ∀ e ∈ es, e.1 ∈ ks := fun e hme => h e (by simp [hme])
    rw [presentFields_cons]
    cases ho : e.2 with
    | none => exact ih hes
    | some v =>
      have hd : decide (¬ e.1 ∈ ks) = false := by simp [he]
      simp only [unknownFields, List.filter_cons, hd]
      exact ih hes

theorem unknownFields_idem (fields : List (String × Json)) (ks : List String) :
    unknownFields (unknownFields fields ks) ks = unknownFields fields ks := by
  simp only [unknownFields, List.filter_filter]
  apply List.filter_congr
  intro kv _
  cases h : decide (¬ kv.1 ∈ ks) <;> simp [h]

/-- Unknown-entry part of a loose-object output rebuilt from its own
output: the declared part disappears and the unknown part is kept. -/
theorem unknownFields_out (es : List (String × Option Json))
    (fields : List (String × Json)) (ks : List String)
    (h : ∀ e ∈ es, e.1 ∈ ks) :
    unknownFields (presentFields es ++ unknownFields fields ks) ks =
      unknownFields fields ks := by
  rw [unknownFields_append, unknownFields_presentFields_nil es ks h,
    unknownFields_idem, List.nil_append]

/-- C2: parseAccessTokenRequest throws a structured
Oauth2ServerErrorResponseError and nothing else on every invalid input:
a body failing schema validation (including a missing or empty required
grant parameter) yields invalid_request, an unknown or missing
grant_type yields invalid_grant (one of invalid_grant /
unsupported_grant_type), a present but malformed DPoP header yields
invalid_dpop_proof, and every valid input returns the parsed request
with the grant specific properties. -/
theorem C2_parseAccessTokenRequest_contract
    (request : RequestHeaders) (body : Json) :
    (vAccessTokenRequest body = none →
      parseAccessTokenRequest request body = .error invalidRequestValidationError)
    ∧ (∀ atr, vAccessTokenRequest body = some atr →
      ¬ atr.grant_type = some preAuthorizedCodeGrantIdentifier →
      ¬ atr.grant_type = some authorizationCodeGrantIdentifier →
      parseAccessTokenRequest request body = .error unsupportedGrantTypeError ∧
        (unsupportedGrantTypeError.error = "invalid_grant" ∨
          unsupportedGrantTypeError.error = "unsupported_grant_type"))
    ∧ (∀ atr, vAccessTokenRequest body = some atr →
      atr.grant_type = some preAuthorizedCodeGrantIdentifier →
      truthyStr atr.preAuthorizedCode = false →
      parseAccessTokenRequest request body = .error missingPreAuthorizedCodeError)
    ∧ (∀ atr, vAccessTokenRequest body = some atr →
      atr.grant_type = some authorizationCodeGrantIdentifier →
      truthyStr atr.code = false →
      parseAccessTokenRequest request body = .error missingCodeError)
    ∧ (∀ atr grant s, vAccessTokenRequest body = some atr →
      parseGrant atr = .ok grant →
      request.dpop = some s → isCompactJwtShape s = false →
      parseAccessTokenRequest request body = .error invalidDpopProofError)
    ∧ (∀ atr grant dpopJwt, vAccessTokenRequest body = some atr →
      parseGrant atr = .ok grant →
      extractDpopJwtFromHeaders request = .valid dpopJwt →
      parseAccessTokenRequest request body =
        .ok ⟨atr, grant, dpopJwt, atr.code_verifier⟩)
    ∧ (∀ atr pac, vAccessTokenRequest body = some atr →
      atr.grant_type = some preAuthorizedCodeGrantIdentifier →
      atr.preAuthorizedCode = some pac → ¬ pac = "" →
      parseGrant atr = .ok (.preAuthorizedCode pac atr.tx_code))
    ∧ (∀ atr c, vAccessTokenRequest body = some atr →
      atr.grant_type = some authorizationCodeGrantIdentifier →
      atr.code = some c → ¬ c = "" →
      parseGrant atr = .ok (.authorizationCode c))
    ∧ (∀ e, parseAccessTokenRequest request body = .error e →
      e.error = "invalid_request" ∨ e.error = "invalid_grant" ∨
        e.error = "invalid_dpop_proof") := by
  have hne : (authorizationCodeGrantIdentifier = preAuthorizedCodeGrantIdentifier) = False := by
    simp [authorizationCodeGrantIdentifier, preAuthorizedCodeGrantIdentifier]
  refine ⟨?_, ?_, ?_, ?_, ?_, ?_, ?_, ?_, ?_⟩
  · intro h
    simp [parseAccessTokenRequest, h]
  · intro atr h h1 h2
    refine ⟨?_, Or.inl rfl⟩
    simp [parseAccessTokenRequest, h, parseGrant, h1, h2]
  · intro atr h h1 h2
    cases hp : atr.preAuthorizedCode with
    | none => simp [parseAccessTokenRequest, h, parseGrant, h1, hp]
    | some pac =>
      rw [hp] at h2
      simp only [truthyStr, decide_eq_false_iff_not, not_not] at h2
      simp [parseAccessTokenRequest, h, parseGrant, h1, hp, h2]
  · intro atr h h1 h2
    cases hc : atr.code with
    | none => simp [parseAccessTokenRequest, h, parseGrant, h1, hne, hc]
    | some c =>
      rw [hc] at h2
      simp only [truthyStr, decide_eq_false_iff_not, not_not] at h2
      simp [parseAccessTokenRequest, h, parseGrant, h1, hne, hc, h2]
  · intro atr grant s h hg hd hshape
    simp [parseAccessTokenRequest, h, hg, extractDpopJwtFromHeaders, hd, hshape]
  · intro atr grant dpopJwt h hg hd
    simp [parseAccessTokenRequest, h, hg, hd]
  · intro atr pac h h1 h2 h3
    simp [parseGrant, h1, h2, h3]
  · intro atr c h h1 h2 h3
    simp [parseGrant, h1, hne, h2, h3]
  · intro e he
    cases hv : vAccessTokenRequest body with
    | none =>
      simp only [parseAccessTokenRequest, hv, Except.error.injEq] at he
      subst he
      exact Or.inl rfl
    | some atr =>
      simp only [parseAccessTokenRequest, hv] at he
      cases hg : parseGrant atr with
      | error ge =>
        simp only [hg, Except.error.injEq] at he
        subst he
        rw [parseGrant] at hg
        by_cases hpre : atr.grant_type = some preAuthorizedCodeGrantIdentifier
        · rw [if_pos hpre] at hg
          cases hp : atr.preAuthorizedCode with
          | none =>
            simp only [hp, Except.error.injEq] at hg
            subst hg
            exact Or.inl rfl
          | some pac =>
            by_cases hpac : pac = ""
            · simp only [hp, if_pos hpac, Except.error.injEq] at hg
              subst hg
              exact Or.inl rfl
            · simp only [hp, if_neg hpac] at hg
              cases hg
        · rw [if_neg hpre] at hg
          by_cases hac : atr.grant_type = some authorizationCodeGrantIdentifier
          · rw [if_pos hac] at hg
            cases hc : atr.code with
            | none =>
              simp only [hc, Except.error.injEq] at hg
              subst hg
              exact Or.inl rfl
            | some c =>
              by_cases hcc : c = ""
              · simp only [hc, if_pos hcc, Except.error.injEq] at hg
                subst hg
                exact Or.inl rfl
              · simp only [hc, if_neg hcc] at hg
                cases hg
          · rw [if_neg hac] at hg
            simp only [Except.error.injEq] at hg
            subst hg
            exact Or.inr (Or.inl rfl)
      | ok grant =>
        simp only [hg] at he
        cases hd : extractDpopJwtFromHeaders request with
        | valid dpopJwt =>
          simp only [hd] at he
          cases he
        | invalid =>
          simp only [hd, Except.error.injEq] at he
          subst he
          exact Or.inr (Or.inr rfl)

/-- C2 witness: on a concrete request whose body carries the
pre-authorized code grant with a malformed DPoP header the parser fails
with invalid_dpop_proof. -/
theorem C2_parseAccessTokenRequest_contract_witness :
    parseAccessTokenRequest ⟨some "only.two"⟩
      (.obj [("grant_type", .str "urn:ietf:params:oauth:grant-type:pre-authorized_code"),
        ("pre-authorized_code", .str "abc")]) = .error invalidDpopProofError :=
  (C2_parseAccessTokenRequest_contract ⟨some "only.two"⟩
      (.obj [("grant_type", .str "urn:ietf:params:oauth:grant-type:pre-authorized_code"),
        ("pre-authorized_code", .str "abc")])).2.2.2.2.1
    ⟨some "urn:ietf:params:oauth:grant-type:pre-authorized_code", some "abc",
      none, none, none⟩
    (.preAuthorizedCode "abc" none) "only.two" rfl rfl rfl (by decide)

/-! ### Entry parser characterizations -/

theorem requiredField_eq_some (fields : List (String × Json)) (k : String)
    (p : Json → Option Json) (w : Json) :
    requiredField fields k p = some w ↔
      ∃ v, lookupField fields k = some v ∧ p v = some w := by
  simp [requiredField, Option.bind_eq_some]

theorem optionalField_eq_some (fields : List (String × Json)) (k : String)
    (p : Json → Option Json) (r : Option Json) :
    optionalField fields k p = some r ↔
      (lookupField fields k = none ∧ r = none) ∨
      (∃ v w, lookupField fields k = some v ∧ p v = some w ∧ r = some w) := by
  rw [optionalField]
  cases h : lookupField fields k with
  | none => simp [eq_comm]
  | some v => simp [Option.map_eq_some', eq_comm]

theorem optionalFieldD_eq_some (fields : List (String × Json)) (k : String)
    (p : Json → Option Json) (d : Json) (r : Option Json) :
    optionalFieldD fields k p d = some r ↔
      (lookupField fields k = none ∧ r = some d) ∨
      (∃ v w, lookupField fields k = some v ∧ p v = some w ∧ r = some w) := by
  rw [optionalFieldD]
  cases h : lookupField fields k with
  | none => simp [eq_comm]
  | some v => simp [Option.map_eq_some', eq_comm]

theorem requiredField_restore (F : List (String × Json)) (k : String)
    (p : Json → Option Json) (v : Json) (hlk : lookupField F k = some v)
    (hv : p v = some v) : requiredField F k p = some v := by
  simp [requiredField, hlk, hv]

theorem optionalField_restore (F : List (String × Json)) (k : String)
    (p : Json → Option Json) (r : Option Json) (hlk : lookupField F k = r)
    (hr : ∀ v, r = some v → p v = some v) : optionalField F k p = some r := by
  cases r with
  | none => simp [optionalField, hlk]
  | some v => simp [optionalField, hlk, hr v rfl]

theorem optionalFieldD_restore (F : List (String × Json)) (k : String)
    (p : Json → Option Json) (d : Json) (w : Json)
    (hlk : lookupField F k = some w) (hw : p w = some w) :
    optionalFieldD F k p d = some (some w) := by
  simp [optionalFieldD, hlk, hw]

theorem optionalField_value_fixed {fields : List (String × Json)} {k : String}
    {p : Json → Option Json} {r : Option Json}
    (h : optionalField fields k p = some r)
    (hp : ∀ v w, p v = some w → p w = some w) :
    ∀ v, r = some v → p v = some v := by
  intro v hv
  subst hv
  rcases (optionalField_eq_some fields k p (some v)).mp h with ⟨-, h2⟩ | ⟨u, w, -, hpu, hw⟩
  · cases h2
  · have hwv : w = v := Option.some.inj hw.symm
    exact hwv ▸ hp u w hpu

/-! ### Identity and stability of the base parsers -/

theorem vStringJ_some {v w : Json} (h : vStringJ v = some w) : w = v := by
  cases v <;> simp [vStringJ] at h <;> simp [h]

theorem vBooleanJ_some {v w : Json} (h : vBooleanJ v = some w) : w = v := by
  cases v <;> simp [vBooleanJ] at h <;> simp [h]

theorem vIntegerJ_some {v w : Json} (h : vIntegerJ v = some w) : w = v := by
  cases v <;> simp [vIntegerJ] at h <;> simp [h]

theorem vJwkJ_some {v w : Json} (h : vJwkJ v = some w) : w = v := by
  cases v <;> simp [vJwkJ] at h <;> simp [h]

theorem vHttpsUrlJ_some {v w : Json} (h : vHttpsUrlJ v = some w) : w = v := by
  cases v <;> simp only [vHttpsUrlJ] at h
  case str s =>
    split at h
    · simp at h
      simp [h]
    · cases h
  all_goals cases h

theorem vLiteralJ_some {s : String} {v w : Json} (h : vLiteralJ s v = some w) :
    w = .str s ∧ v = .str s := by
  cases v <;> simp only [vLiteralJ] at h
  case str t =>
    split at h
    · rename_i ht
      subst ht
      simp at h
      simp [h]
    · cases h
  all_goals cases h

theorem vStringMax300J_some {v w : Json} (h : vStringMax300J v = some w) :
    w = v := by
  cases v <;> simp only [vStringMax300J] at h
  case str s =>
    split at h
    · simp at h
      simp [h]
    · cases h
  all_goals cases h

theorem vInputModeJ_some {v w : Json} (h : vInputModeJ v = some w) : w = v := by
  cases v <;> simp only [vInputModeJ] at h
  case str s =>
    split at h
    · simp at h
      simp [h]
    · cases h
  all_goals cases h

theorem parseAll_vStringJ_id {elems ys : List Json}
    (h : parseAll vStringJ elems = some ys) : ys = elems := by
  induction elems generalizing ys with
  | nil =>
    simp [parseAll] at h
    simp [h]
  | cons x xs ih =>
    simp only [parseAll, Option.bind_eq_some, Option.map_eq_some'] at h
    obtain ⟨y, hy, zs, hzs, hcons⟩ := h
    rw [← hcons, vStringJ_some hy, ih hzs]

theorem vStringArrayJ_some {v w : Json} (h : vStringArrayJ v = some w) :
    w = v := by
  cases v <;> simp only [vStringArrayJ] at h
  case arr elems =>
    simp only [Option.map_eq_some'] at h
    obtain ⟨ys, hys, hw⟩ := h
    rw [← hw, parseAll_vStringJ_id hys]
  all_goals cases h

theorem vStringJ_stable : ∀ v w, vStringJ v = some w → vStringJ w = some w :=
  fun _ w h => by have e := vStringJ_some h; subst e; exact h

theorem vBooleanJ_stable : ∀ v w, vBooleanJ v = some w → vBooleanJ w = some w :=
  fun _ w h => by have e := vBooleanJ_some h; subst e; exact h

theorem vIntegerJ_stable : ∀ v w, vIntegerJ v = some w → vIntegerJ w = some w :=
  fun _ w h => by have e := vIntegerJ_some h; subst e; exact h

theorem vJwkJ_stable : ∀ v w, vJwkJ v = some w → vJwkJ w = some w :=
  fun _ w h => by have e := vJwkJ_some h; subst e; exact h

theorem vHttpsUrlJ_stable : ∀ v w, vHttpsUrlJ v = some w → vHttpsUrlJ w = some w :=
  fun _ w h => by have e := vHttpsUrlJ_some h; subst e; exact h

theorem vStringMax300J_stable :
    ∀ v w, vStringMax300J v = some w → vStringMax300J w = some w :=
  fun _ w h => by have e := vStringMax300J_some h; subst e; exact h

theorem vInputModeJ_stable :
    ∀ v w, vInputModeJ v = some w → vInputModeJ w = some w :=
  fun _ w h => by have e := vInputModeJ_some h; subst e; exact h

theorem vStringArrayJ_stable :
    ∀ v w, vStringArrayJ v = some w → vStringArrayJ w = some w :=
  fun _ w h => by have e := vStringArrayJ_some h; subst e; exact h

/-! ### Stability of the credential offer schemas: re-validating a
parsed output returns it unchanged. -/

theorem vTxCodeJ_stable {j w : Json} (h : vTxCodeJ j = some w) :
    vTxCodeJ w = some w := by
  cases j with
  | obj fields =>
    simp only [vTxCodeJ, Option.bind_eq_some, Option.some.injEq] at h
    obtain ⟨im, him, len, hlen, desc, hdesc, hw⟩ := h
    have himv : ∃ imv, im = some imv ∧ vInputModeJ imv = some imv := by
      rcases (optionalFieldD_eq_some fields "input_mode" vInputModeJ
          (.str "numeric") im).mp him with ⟨-, h2⟩ | ⟨v, w', -, hpv, h2⟩
      · exact ⟨.str "numeric", h2, rfl⟩
      · exact ⟨w', h2, vInputModeJ_stable v w' hpv⟩
    obtain ⟨imv, himv, himfix⟩ := himv
    subst himv
    have hlenfix := optionalField_value_fixed hlen vIntegerJ_stable
    have hdescfix := optionalField_value_fixed hdesc vStringMax300J_stable
    subst hw
    have e1 := optionalFieldD_restore
      (presentFields [("input_mode", some imv), ("length", len), ("description", desc)] ++
        unknownFields fields ["input_mode", "length", "description"])
      "input_mode" vInputModeJ (.str "numeric") imv
      (lookupField_out [] [("length", len), ("description", desc)] fields
        ["input_mode", "length", "description"] "input_mode" (some imv)
        (by simp) (by simp) (by simp))
      himfix
    have e2 := optionalField_restore
      (presentFields [("input_mode", some imv), ("length", len), ("description", desc)] ++
        unknownFields fields ["input_mode", "length", "description"])
      "length" vIntegerJ len
      (lookupField_out [("input_mode", some imv)] [("description", desc)] fields
        ["input_mode", "length", "description"] "length" len
        (by simp) (by simp) (by simp))
      hlenfix
    have e3 := optionalField_restore
      (presentFields [("input_mode", some imv), ("length", len), ("description", desc)] ++
        unknownFields fields ["input_mode", "length", "description"])
      "description" vStringMax300J desc
      (lookupField_out [("input_mode", some imv), ("length", len)] [] fields
        ["input_mode", "length", "description"] "description" desc
        (by simp) (by simp) (by simp))
      hdescfix
    simp only [vTxCodeJ, e1, e2, e3, Option.some_bind, Option.some.injEq, Json.obj.injEq]
    rw [unknownFields_out [("input_mode", some imv), ("length", len), ("description", desc)]
      fields ["input_mode", "length", "description"] (by simp)]
  | null => simp [vTxCodeJ] at h
  | bool b => simp [vTxCodeJ] at h
  | num n => simp [vTxCodeJ] at h
  | str s => simp [vTxCodeJ] at h
  | arr es => simp [vTxCodeJ] at h

theorem requiredField_value_fixed {fields : List (String × Json)} {k : String}
    {p : Json → Option Json} {w : Json}
    (h : requiredField fields k p = some w)
    (hp : ∀ v w, p v = some w → p w = some w) : p w = some w := by
  obtain ⟨v, -, hpv⟩ := (requiredField_eq_some fields k p w).mp h
  exact hp v w hpv

theorem vAuthorizationCodeGrantJ_stable {j w : Json}
    (h : vAuthorizationCodeGrantJ j = some w) :
    vAuthorizationCodeGrantJ w = some w := by
  cases j with
  | obj fields =>
    simp only [vAuthorizationCodeGrantJ, Option.bind_eq_some, Option.some.injEq] at h
    obtain ⟨ist, hist, asrv, hasrv, hw⟩ := h
    have histfix := optionalField_value_fixed hist vStringJ_stable
    have hasrvfix := optionalField_value_fixed hasrv vHttpsUrlJ_stable
    subst hw
    have e1 := optionalField_restore
      (presentFields [("issuer_state", ist), ("authorization_server", asrv)] ++
        unknownFields fields ["issuer_state", "authorization_server"])
      "issuer_state" vStringJ ist
      (lookupField_out [] [("authorization_server", asrv)] fields
        ["issuer_state", "authorization_server"] "issuer_state" ist
        (by simp) (by simp) (by simp))
      histfix
    have e2 := optionalField_restore
      (presentFields [("issuer_state", ist), ("authorization_server", asrv)] ++
        unknownFields fields ["issuer_state", "authorization_server"])
      "authorization_server" vHttpsUrlJ asrv
      (lookupField_out [("issuer_state", ist)] [] fields
        ["issuer_state", "authorization_server"] "authorization_server" asrv
        (by simp) (by simp) (by simp))
      hasrvfix
    simp only [vAuthorizationCodeGrantJ, e1, e2, Option.some_bind, Option.some.injEq,
      Json.obj.injEq]
    rw [unknownFields_out [("issuer_state", ist), ("authorization_server", asrv)]
      fields ["issuer_state", "authorization_server"] (by simp)]
  | null => simp [vAuthorizationCodeGrantJ] at h
  | bool b => simp [vAuthorizationCodeGrantJ] at h
  | num n => simp [vAuthorizationCodeGrantJ] at h
  | str s => simp [vAuthorizationCodeGrantJ] at h
  | arr es => simp [vAuthorizationCodeGrantJ] at h

theorem vPreAuthorizedGrantJ_stable {j w : Json}
    (h : vPreAuthorizedGrantJ j = some w) :
    vPreAuthorizedGrantJ w = some w := by
  cases j with
  | obj fields =>
    simp only [vPreAuthorizedGrantJ, Option.bind_eq_some, Option.some.injEq] at h
    obtain ⟨pac, hpac, txc, htxc, asrv, hasrv, hw⟩ := h
    have hpacfix := requiredField_value_fixed hpac vStringJ_stable
    have htxcfix := optionalField_value_fixed htxc (fun _ _ hh => vTxCodeJ_stable hh)
    have hasrvfix := optionalField_value_fixed hasrv vHttpsUrlJ_stable
    subst hw
    have e1 := requiredField_restore
      (presentFields [("pre-authorized_code", some pac), ("tx_code", txc),
        ("authorization_server", asrv)] ++
        unknownFields fields ["pre-authorized_code", "tx_code", "authorization_server"])
      "pre-authorized_code" vStringJ pac
      (lookupField_out [] [("tx_code", txc), ("authorization_server", asrv)] fields
        ["pre-authorized_code", "tx_code", "authorization_server"]
        "pre-authorized_code" (some pac) (by simp) (by simp) (by simp))
      hpacfix
    have e2 := optionalField_restore
      (presentFields [("pre-authorized_code", some pac), ("tx_code", txc),
        ("authorization_server", asrv)] ++
        unknownFields fields ["pre-authorized_code", "tx_code", "authorization_server"])
      "tx_code" vTxCodeJ txc
      (lookupField_out [("pre-authorized_code", some pac)] [("authorization_server", asrv)]
        fields ["pre-authorized_code", "tx_code", "authorization_server"]
        "tx_code" txc (by simp) (by simp) (by simp))
      htxcfix
    have e3 := optionalField_restore
      (presentFields [("pre-authorized_code", some pac), ("tx_code", txc),
        ("authorization_server", asrv)] ++
        unknownFields fields ["pre-authorized_code", "tx_code", "authorization_server"])
      "authorization_server" vHttpsUrlJ asrv
      (lookupField_out [("pre-authorized_code", some pac), ("tx_code", txc)] []
        fields ["pre-authorized_code", "tx_code", "authorization_server"]
        "authorization_server" asrv (by simp) (by simp) (by simp))
      hasrvfix
    simp only [vPreAuthorizedGrantJ, e1, e2, e3, Option.some_bind, Option.some.injEq,
      Json.obj.injEq]
    rw [unknownFields_out [("pre-authorized_code", some pac), ("tx_code", txc),
      ("authorization_server", asrv)] fields
      ["pre-authorized_code", "tx_code", "authorization_server"] (by simp)]
  | null => simp [vPreAuthorizedGrantJ] at h
  | bool b => simp [vPreAuthorizedGrantJ] at h
  | num n => simp [vPreAuthorizedGrantJ] at h
  | str s => simp [vPreAuthorizedGrantJ] at h
  | arr es => simp [vPreAuthorizedGrantJ] at h

theorem vCredentialOfferGrantsJ_stable {j w : Json}
    (h : vCredentialOfferGrantsJ j = some w) :
    vCredentialOfferGrantsJ w = some w := by
  cases j with
  | obj fields =>
    simp only [vCredentialOfferGrantsJ, Option.bind_eq_some, Option.some.injEq] at h
    obtain ⟨ac, hac, pre, hpre, hw⟩ := h
    have hacfix := optionalField_value_fixed hac
      (fun _ _ hh => vAuthorizationCodeGrantJ_stable hh)
    have hprefix := optionalField_value_fixed hpre
      (fun _ _ hh => vPreAuthorizedGrantJ_stable hh)
    subst hw
    have e1 := optionalField_restore
      (presentFields [("authorization_code", ac), (preAuthorizedCodeGrantIdentifier, pre)] ++
        unknownFields fields ["authorization_code", preAuthorizedCodeGrantIdentifier])
      "authorization_code" vAuthorizationCodeGrantJ ac
      (lookupField_out [] [(preAuthorizedCodeGrantIdentifier, pre)] fields
        ["authorization_code", preAuthorizedCodeGrantIdentifier]
        "authorization_code" ac (by simp)
        (by simp [preAuthorizedCodeGrantIdentifier]) (by simp))
      hacfix
    have e2 := optionalField_restore
      (presentFields [("authorization_code", ac), (preAuthorizedCodeGrantIdentifier, pre)] ++
        unknownFields fields ["authorization_code", preAuthorizedCodeGrantIdentifier])
      preAuthorizedCodeGrantIdentifier vPreAuthorizedGrantJ pre
      (lookupField_out [("authorization_code", ac)] [] fields
        ["authorization_code", preAuthorizedCodeGrantIdentifier]
        preAuthorizedCodeGrantIdentifier pre
        (by simp [preAuthorizedCodeGrantIdentifier]) (by simp) (by simp))
      hprefix
    simp only [vCredentialOfferGrantsJ, e1, e2, Option.some_bind, Option.some.injEq,
      Json.obj.injEq]
    rw [unknownFields_out [("authorization_code", ac), (preAuthorizedCodeGrantIdentifier, pre)]
      fields ["authorization_code", preAuthorizedCodeGrantIdentifier] (by simp)]
  | null => simp [vCredentialOfferGrantsJ] at h
  | bool b => simp [vCredentialOfferGrantsJ] at h
  | num n => simp [vCredentialOfferGrantsJ] at h
  | str s => simp [vCredentialOfferGrantsJ] at h
  | arr es => simp [vCredentialOfferGrantsJ] at h

theorem vCredentialOfferObjectDraft14J_stable {j w : Json}
    (h : vCredentialOfferObjectDraft14J j = some w) :
    vCredentialOfferObjectDraft14J w = some w := by
  cases j with
  | obj fields =>
    simp only [vCredentialOfferObjectDraft14J, Option.bind_eq_some, Option.some.injEq] at h
    obtain ⟨ci, hci, ids, hids, grants, hgrants, hw⟩ := h
    have hcifix := requiredField_value_fixed hci vHttpsUrlJ_stable
    have hidsfix := requiredField_value_fixed hids vStringArrayJ_stable
    have hgrantsfix := optionalField_value_fixed hgrants
      (fun _ _ hh => vCredentialOfferGrantsJ_stable hh)
    subst hw
    have e1 := requiredField_restore
      (presentFields [("credential_issuer", some ci),
        ("credential_configuration_ids", some ids), ("grants", grants)] ++
        unknownFields fields
          ["credential_issuer", "credential_configuration_ids", "grants"])
      "credential_issuer" vHttpsUrlJ ci
      (lookupField_out [] [("credential_configuration_ids", some ids), ("grants", grants)]
        fields ["credential_issuer", "credential_configuration_ids", "grants"]
        "credential_issuer" (some ci) (by simp) (by simp) (by simp))
      hcifix
    have e2 := requiredField_restore
      (presentFields [("credential_issuer", some ci),
        ("credential_configuration_ids", some ids), ("grants", grants)] ++
        unknownFields fields
          ["credential_issuer", "credential_configuration_ids", "grants"])
      "credential_configuration_ids" vStringArrayJ ids
      (lookupField_out [("credential_issuer", some ci)] [("grants", grants)]
        fields ["credential_issuer", "credential_configuration_ids", "grants"]
        "credential_configuration_ids" (some ids) (by simp) (by simp) (by simp))
      hidsfix
    have e3 := optionalField_restore
      (presentFields [("credential_issuer", some ci),
        ("credential_configuration_ids", some ids), ("grants", grants)] ++
        unknownFields fields
          ["credential_issuer", "credential_configuration_ids", "grants"])
      "grants" vCredentialOfferGrantsJ grants
      (lookupField_out [("credential_issuer", some ci),
        ("credential_configuration_ids", some ids)] []
        fields ["credential_issuer", "credential_configuration_ids", "grants"]
        "grants" grants (by simp) (by simp) (by simp))
      hgrantsfix
    simp only [vCredentialOfferObjectDraft14J, e1, e2, e3, Option.some_bind,
      Option.some.injEq, Json.obj.injEq]
    rw [unknownFields_out [("credential_issuer", some ci),
      ("credential_configuration_ids", some ids), ("grants", grants)] fields
      ["credential_issuer", "credential_configuration_ids", "grants"] (by simp)]
  | null => simp [vCredentialOfferObjectDraft14J] at h
  | bool b => simp [vCredentialOfferObjectDraft14J] at h
  | num n => simp [vCredentialOfferObjectDraft14J] at h
  | str s => simp [vCredentialOfferObjectDraft14J] at h
  | arr es => simp [vCredentialOfferObjectDraft14J] at h

/-- Looking up a key that is neither declared nor filtered passes
through a loose-object output to the input (unknown entries are kept
unchanged). -/
theorem lookupField_out_unknown (es : List (String × Option Json))
    (fields : List (String × Json)) (ks : List String) (k : String)
    (hes : ∀ e ∈ es, ¬ e.1 = k) (hk : ¬ k ∈ ks) :
    lookupField (presentFields es ++ unknownFields fields ks) k =
      lookupField fields k := by
  rw [lookupField_presentFields_skip es _ k hes,
    lookupField_unknown_not_mem _ _ _ hk]

theorem lookupField_v14_other (mFields : List (String × Json)) (v : Json)
    (k : String) (h1 : ¬ k = "credentials") (h2 : ¬ k = "grants")
    (h3 : ¬ k = "credential_configuration_ids") :
    lookupField (objSet (objRemove (objRemove mFields "credentials") "grants")
        "credential_configuration_ids" v) k = lookupField mFields k := by
  rw [lookupField_objSet_other _ _ _ _ (fun hh => h3 hh.symm),
    lookupField_objRemove_other _ _ _ h2, lookupField_objRemove_other _ _ _ h1]

/-- Characterization of the draft 11 to draft 14 transform on an
object: keys other than credentials, grants and
credential_configuration_ids are untouched, the credentials value moves
to credential_configuration_ids, and inside a present grants object the
pre-authorized grant keeps its entries minus user_pin_required, gaining
tx_code {input_mode: text} exactly when user_pin_required was (the
truthy) true. -/
theorem credentialOfferTransform_spec (mFields : List (String × Json)) :
    ∃ tFields,
      credentialOfferDraft11To14Transform (.obj mFields) = .obj tFields ∧
      (∀ k, ¬ k = "credentials" → ¬ k = "grants" →
        ¬ k = "credential_configuration_ids" →
        lookupField tFields k = lookupField mFields k) ∧
      lookupField tFields "credential_configuration_ids" =
        some ((lookupField mFields "credentials").getD .null) ∧
      (∀ gFields, lookupField mFields "grants" = some (.obj gFields) →
        ∃ tgFields, lookupField tFields "grants" = some (.obj tgFields) ∧
          (∀ pFields,
            lookupField gFields preAuthorizedCodeGrantIdentifier = some (.obj pFields) →
            ∃ tpFields,
              lookupField tgFields preAuthorizedCodeGrantIdentifier = some (.obj tpFields) ∧
              ((userPinTruthy (lookupField pFields "user_pin_required") = true ∧
                lookupField tpFields "tx_code" =
                  some (.obj [("input_mode", .str "text")])) ∨
                (userPinTruthy (lookupField pFields "user_pin_required") = false ∧
                  lookupField tpFields "tx_code" = lookupField pFields "tx_code")))) := by
  cases hg : lookupField mFields "grants" with
  | none =>
    refine ⟨_, (by simp only [credentialOfferDraft11To14Transform, hg]; rfl), ?_, ?_, ?_⟩
    · intro k h1 h2 h3
      exact lookupField_v14_other mFields _ k h1 h2 h3
    · exact lookupField_objSet_self _ _ _
    · intro gFields hgf
      simp at hgf
  | some gv =>
    cases gv with
    | obj gFields =>
      cases hpre : lookupField gFields preAuthorizedCodeGrantIdentifier with
      | none =>
        refine ⟨_, (by simp only [credentialOfferDraft11To14Transform, hg, hpre]; rfl), ?_, ?_, ?_⟩
        · intro k h1 h2 h3
          rw [lookupField_objSet_other _ _ _ _ (fun hh => h2 hh.symm)]
          exact lookupField_v14_other mFields _ k h1 h2 h3
        · rw [lookupField_objSet_other _ _ _ _ (by decide)]
          exact lookupField_objSet_self _ _ _
        · intro gFields' hgf
          simp only [Option.some.injEq, Json.obj.injEq] at hgf
          subst hgf
          refine ⟨gFields, lookupField_objSet_self _ _ _, ?_⟩
          intro pFields hpf
          rw [hpre] at hpf
          simp at hpf
      | some pv =>
        cases pv with
        | obj pFields =>
          cases hpin : userPinTruthy (lookupField pFields "user_pin_required") with
          | true =>
            refine ⟨_, (by simp only [credentialOfferDraft11To14Transform, hg, hpre, hpin, if_true]; rfl), ?_, ?_, ?_⟩
            · intro k h1 h2 h3
              rw [lookupField_objSet_other _ _ _ _ (fun hh => h2 hh.symm)]
              exact lookupField_v14_other mFields _ k h1 h2 h3
            · rw [lookupField_objSet_other _ _ _ _ (by decide)]
              exact lookupField_objSet_self _ _ _
            · intro gFields' hgf
              simp only [Option.some.injEq, Json.obj.injEq] at hgf
              subst hgf
              refine ⟨_, lookupField_objSet_self _ _ _, ?_⟩
              intro pFields' hpf
              rw [hpre] at hpf
              simp only [Option.some.injEq, Json.obj.injEq] at hpf
              subst hpf
              refine ⟨_, lookupField_objSet_self _ _ _, Or.inl ⟨hpin, ?_⟩⟩
              exact lookupField_objSet_self _ _ _
          | false =>
            refine ⟨_, (by simp only [credentialOfferDraft11To14Transform, hg, hpre, hpin, Bool.false_eq_true, if_false]; rfl), ?_, ?_, ?_⟩
            · intro k h1 h2 h3
              rw [lookupField_objSet_other _ _ _ _ (fun hh => h2 hh.symm)]
              exact lookupField_v14_other mFields _ k h1 h2 h3
            · rw [lookupField_objSet_other _ _ _ _ (by decide)]
              exact lookupField_objSet_self _ _ _
            · intro gFields' hgf
              simp only [Option.some.injEq, Json.obj.injEq] at hgf
              subst hgf
              refine ⟨_, lookupField_objSet_self _ _ _, ?_⟩
              intro pFields' hpf
              rw [hpre] at hpf
              simp only [Option.some.injEq, Json.obj.injEq] at hpf
              subst hpf
              refine ⟨_, lookupField_objSet_self _ _ _, Or.inr ⟨hpin, ?_⟩⟩
              exact lookupField_objRemove_other _ _ _ (by decide)
        | null =>
          refine ⟨_, (by simp only [credentialOfferDraft11To14Transform, hg, hpre]; rfl), ?_, ?_, ?_⟩
          · intro k h1 h2 h3
            rw [lookupField_objSet_other _ _ _ _ (fun hh => h2 hh.symm)]
            exact lookupField_v14_other mFields _ k h1 h2 h3
          · rw [lookupField_objSet_other _ _ _ _ (by decide)]
            exact lookupField_objSet_self _ _ _
          · intro gFields' hgf
            simp only [Option.some.injEq, Json.obj.injEq] at hgf
            subst hgf
            refine ⟨gFields, lookupField_objSet_self _ _ _, ?_⟩
            intro pFields hpf
            rw [hpre] at hpf
            simp at hpf
        | bool b =>
          refine ⟨_, (by simp only [credentialOfferDraft11To14Transform, hg, hpre]; rfl), ?_, ?_, ?_⟩
          · intro k h1 h2 h3
            rw [lookupField_objSet_other _ _ _ _ (fun hh => h2 hh.symm)]
            exact lookupField_v14_other mFields _ k h1 h2 h3
          · rw [lookupField_objSet_other _ _ _ _ (by decide)]
            exact lookupField_objSet_self _ _ _
          · intro gFields' hgf
            simp only [Option.some.injEq, Json.obj.injEq] at hgf
            subst hgf
            refine ⟨gFields, lookupField_objSet_self _ _ _, ?_⟩
            intro pFields hpf
            rw [hpre] at hpf
            simp at hpf
        | num n =>
          refine ⟨_, (by simp only [credentialOfferDraft11To14Transform, hg, hpre]; rfl), ?_, ?_, ?_⟩
          · intro k h1 h2 h3
            rw [lookupField_objSet_other _ _ _ _ (fun hh => h2 hh.symm)]
            exact lookupField_v14_other mFields _ k h1 h2 h3
          · rw [lookupField_objSet_other _ _ _ _ (by decide)]
            exact lookupField_objSet_self _ _ _
          · intro gFields' hgf
            simp only [Option.some.injEq, Json.obj.injEq] at hgf
            subst hgf
            refine ⟨gFields, lookupField_objSet_self _ _ _, ?_⟩
            intro pFields hpf
            rw [hpre] at hpf
            simp at hpf
        | str s =>
          refine ⟨_, (by simp only [credentialOfferDraft11To14Transform, hg, hpre]; rfl), ?_, ?_, ?_⟩
          · intro k h1 h2 h3
            rw [lookupField_objSet_other _ _ _ _ (fun hh => h2 hh.symm)]
            exact lookupField_v14_other mFields _ k h1 h2 h3
          · rw [lookupField_objSet_other _ _ _ _ (by decide)]
            exact lookupField_objSet_self _ _ _
          · intro gFields' hgf
            simp only [Option.some.injEq, Json.obj.injEq] at hgf
            subst hgf
            refine ⟨gFields, lookupField_objSet_self _ _ _, ?_⟩
            intro pFields hpf
            rw [hpre] at hpf
            simp at hpf
        | arr es =>
          refine ⟨_, (by simp only [credentialOfferDraft11To14Transform, hg, hpre]; rfl), ?_, ?_, ?_⟩
          · intro k h1 h2 h3
            rw [lookupField_objSet_other _ _ _ _ (fun hh => h2 hh.symm)]
            exact lookupField_v14_other mFields _ k h1 h2 h3
          · rw [lookupField_objSet_other _ _ _ _ (by decide)]
            exact lookupField_objSet_self _ _ _
          · intro gFields' hgf
            simp only [Option.some.injEq, Json.obj.injEq] at hgf
            subst hgf
            refine ⟨gFields, lookupField_objSet_self _ _ _, ?_⟩
            intro pFields hpf
            rw [hpre] at hpf
            simp at hpf
    | null =>
      refine ⟨_, (by simp only [credentialOfferDraft11To14Transform, hg]; rfl), ?_, ?_, ?_⟩
      · intro k h1 h2 h3
        exact lookupField_v14_other mFields _ k h1 h2 h3
      · exact lookupField_objSet_self _ _ _
      · intro gFields hgf
        simp at hgf
    | bool b =>
      refine ⟨_, (by simp only [credentialOfferDraft11To14Transform, hg]; rfl), ?_, ?_, ?_⟩
      · intro k h1 h2 h3
        exact lookupField_v14_other mFields _ k h1 h2 h3
      · exact lookupField_objSet_self _ _ _
      · intro gFields hgf
        simp at hgf
    | num n =>
      refine ⟨_, (by simp only [credentialOfferDraft11To14Transform, hg]; rfl), ?_, ?_, ?_⟩
      · intro k h1 h2 h3
        exact lookupField_v14_other mFields _ k h1 h2 h3
      · exact lookupField_objSet_self _ _ _
      · intro gFields hgf
        simp at hgf
    | str s =>
      refine ⟨_, (by simp only [credentialOfferDraft11To14Transform, hg]; rfl), ?_, ?_, ?_⟩
      · intro k h1 h2 h3
        exact lookupField_v14_other mFields _ k h1 h2 h3
      · exact lookupField_objSet_self _ _ _
      · intro gFields hgf
        simp at hgf
    | arr es =>
      refine ⟨_, (by simp only [credentialOfferDraft11To14Transform, hg]; rfl), ?_, ?_, ?_⟩
      · intro k h1 h2 h3
        exact lookupField_v14_other mFields _ k h1 h2 h3
      · exact lookupField_objSet_self _ _ _
      · intro gFields hgf
        simp at hgf

/-- C7: the draft 11 to draft 14 credential offer normalization is
idempotent: the offer validator union (which tries the draft 14 schema
first) maps every normalized offer to itself unchanged; and the
normalization preserves credential_issuer bit for bit. -/
theorem C7_normalization_idempotent (j n : Json)
    (hp : vCredentialOfferObjectDraft11To14J j = some n) :
    vCredentialOfferObjectJ n = some n
    ∧ (∀ fields nFields, j = .obj fields → n = .obj nFields →
      lookupField nFields "credential_issuer" =
        lookupField fields "credential_issuer") := by
  obtain ⟨m, hm, h14⟩ := Option.bind_eq_some.mp hp
  constructor
  · have hstab := vCredentialOfferObjectDraft14J_stable h14
    simp [vCredentialOfferObjectJ, hstab]
  · intro fields nFields hj hn
    subst hj
    subst hn
    simp only [vCredentialOfferObjectDraft11SchemaJ, Option.bind_eq_some,
      Option.some.injEq] at hm
    obtain ⟨ci, hci, credentials, hcred, grants, hgrants, hmEq⟩ := hm
    subst hmEq
    obtain ⟨civ, hcivIn, hcieq⟩ : ∃ civ,
        lookupField fields "credential_issuer" = some civ ∧ ci = civ := by
      obtain ⟨v, hv, hpv⟩ := (requiredField_eq_some _ _ _ _).mp hci
      exact ⟨v, hv, vHttpsUrlJ_some hpv⟩
    subst hcieq
    obtain ⟨tFields, htEq, hother, -, -⟩ := credentialOfferTransform_spec
      (presentFields [("credential_issuer", some ci),
        ("credentials", some credentials), ("grants", grants)] ++
        unknownFields fields ["credential_issuer", "credentials", "grants"])
    rw [htEq] at h14
    simp only [vCredentialOfferObjectDraft14J, Option.bind_eq_some,
      Option.some.injEq] at h14
    obtain ⟨ci14, hci14, ids14, hids14, gr14, hgr14, hnEq⟩ := h14
    simp only [Json.obj.injEq] at hnEq
    subst hnEq
    have egoal := lookupField_out [] [("credential_configuration_ids", some ids14),
      ("grants", gr14)] tFields
      ["credential_issuer", "credential_configuration_ids", "grants"]
      "credential_issuer" (some ci14) (by simp) (by simp) (by simp)
    simp only [List.nil_append] at egoal
    rw [egoal]
    obtain ⟨v, hv, hpv⟩ := (requiredField_eq_some _ _ _ _).mp hci14
    rw [hother "credential_issuer" (by decide) (by decide) (by decide)] at hv
    have ein := lookupField_out [] [("credentials", some credentials),
      ("grants", grants)] fields ["credential_issuer", "credentials", "grants"]
      "credential_issuer" (some ci) (by simp) (by simp) (by simp)
    simp only [List.nil_append] at ein
    rw [ein] at hv
    have hveq : v = ci := Option.some.inj hv.symm
    subst hveq
    have hci14eq : ci14 = v := vHttpsUrlJ_some hpv
    rw [hcivIn, hci14eq]

/-- C7 witness: a concrete draft 11 offer is normalized, the validator
union maps the normalized offer to itself, and credential_issuer is
preserved. -/
theorem C7_normalization_idempotent_witness :
    vCredentialOfferObjectJ
      (.obj [("credential_issuer", .str "https://i.example"),
        ("credential_configuration_ids", .arr [.str "a"])]) =
      some (.obj [("credential_issuer", .str "https://i.example"),
        ("credential_configuration_ids", .arr [.str "a"])])
    ∧ lookupField [("credential_issuer", Json.str "https://i.example"),
        ("credential_configuration_ids", Json.arr [Json.str "a"])]
        "credential_issuer" =
      lookupField [("credential_issuer", Json.str "https://i.example"),
        ("credentials", Json.arr [Json.str "a"])] "credential_issuer" :=
  ⟨(C7_normalization_idempotent
      (.obj [("credential_issuer", .str "https://i.example"),
        ("credentials", .arr [.str "a"])])
      (.obj [("credential_issuer", .str "https://i.example"),
        ("credential_configuration_ids", .arr [.str "a"])]) rfl).1,
    (C7_normalization_idempotent
      (.obj [("credential_issuer", .str "https://i.example"),
        ("credentials", .arr [.str "a"])])
      (.obj [("credential_issuer", .str "https://i.example"),
        ("credential_configuration_ids", .arr [.str "a"])]) rfl).2
      [("credential_issuer", Json.str "https://i.example"),
        ("credentials", Json.arr [Json.str "a"])]
      [("credential_issuer", Json.str "https://i.example"),
        ("credential_configuration_ids", Json.arr [Json.str "a"])] rfl rfl⟩

/-- C3 counterexample: a draft 11 offer whose pre-authorized grant has
no user_pin_required but carries a stray tx_code entry is accepted by
the draft 11 validator (loose objects pass unknown entries through), and
the normalized pre-authorized grant does have a tx_code field, contrary
to the claim that it has none whenever user_pin_required is absent. -/
theorem C3_counterexample :
    vCredentialOfferObjectDraft11To14J
      (.obj [("credential_issuer", .str "https://issuer.example"),
        ("credentials", .arr [.str "a"]),
        ("grants", .obj [(preAuthorizedCodeGrantIdentifier,
          .obj [("pre-authorized_code", .str "pac"),
            ("tx_code", .obj [("input_mode", .str "numeric")])])])]) =
      some (.obj [("credential_issuer", .str "https://issuer.example"),
        ("credential_configuration_ids", .arr [.str "a"]),
        ("grants", .obj [(preAuthorizedCodeGrantIdentifier,
          .obj [("pre-authorized_code", .str "pac"),
            ("tx_code", .obj [("input_mode", .str "numeric")])])])])
    ∧ lookupField [("pre-authorized_code", Json.str "pac"),
        ("tx_code", Json.obj [("input_mode", Json.str "numeric")])]
        "user_pin_required" = none
    ∧ lookupField [("pre-authorized_code", Json.str "pac"),
        ("tx_code", Json.obj [("input_mode", Json.str "numeric")])] "tx_code" =
      some (.obj [("input_mode", Json.str "numeric")]) :=
  ⟨rfl, rfl, rfl⟩

/-- C3 (amended): for every draft 11 offer accepted by the draft 11 to
draft 14 validator, the credentials array becomes
credential_configuration_ids; a pre-authorized grant with
user_pin_required true gains tx_code {input_mode: text}; with
user_pin_required false or absent, the normalized grant has a tx_code
field exactly when the draft 11 grant itself already carried a (stray)
tx_code entry, which the loose schemas pass through. -/
theorem C3_draft11_to_14_normalization (fields : List (String × Json))
    (out : Json)
    (hp : vCredentialOfferObjectDraft11To14J (.obj fields) = some out) :
    ∃ nFields, out = .obj nFields ∧
      lookupField nFields "credential_configuration_ids" =
        lookupField fields "credentials" ∧
      (∀ gInFields pInFields,
        lookupField fields "grants" = some (.obj gInFields) →
        lookupField gInFields preAuthorizedCodeGrantIdentifier =
          some (.obj pInFields) →
        ∃ gOutFields pOutFields,
          lookupField nFields "grants" = some (.obj gOutFields) ∧
          lookupField gOutFields preAuthorizedCodeGrantIdentifier =
            some (.obj pOutFields) ∧
          (lookupField pInFields "user_pin_required" = some (.bool true) →
            lookupField pOutFields "tx_code" =
              some (.obj [("input_mode", .str "text")])) ∧
          (¬ lookupField pInFields "user_pin_required" = some (.bool true) →
            (lookupField pOutFields "tx_code" = none ↔
              lookupField pInFields "tx_code" = none))) := by
  obtain ⟨m, hm, h14⟩ := Option.bind_eq_some.mp hp
  simp only [vCredentialOfferObjectDraft11SchemaJ, Option.bind_eq_some,
    Option.some.injEq] at hm
  obtain ⟨ci, hci, credentials, hcred, grants, hgrants, hmEq⟩ := hm
  subst hmEq
  obtain ⟨tFields, htEq, hother, hccids, hgrT⟩ := credentialOfferTransform_spec
    (presentFields [("credential_issuer", some ci),
      ("credentials", some credentials), ("grants", grants)] ++
      unknownFields fields ["credential_issuer", "credentials", "grants"])
  rw [htEq] at h14
  simp only [vCredentialOfferObjectDraft14J, Option.bind_eq_some,
    Option.some.injEq] at h14
  obtain ⟨ci14, hci14, ids14, hids14, gr14, hgr14, hnEq⟩ := h14
  refine ⟨_, hnEq.symm, ?_, ?_⟩
  · have ego := lookupField_out [("credential_issuer", some ci14)]
      [("grants", gr14)] tFields
      ["credential_issuer", "credential_configuration_ids", "grants"]
      "credential_configuration_ids" (some ids14) (by simp) (by simp) (by simp)
    simp only [List.cons_append, List.nil_append] at ego
    rw [ego]
    obtain ⟨v, hv, hpv⟩ := (requiredField_eq_some _ _ _ _).mp hids14
    rw [hccids] at hv
    have emx := lookupField_out [("credential_issuer", some ci)]
      [("grants", grants)] fields ["credential_issuer", "credentials", "grants"]
      "credentials" (some credentials) (by simp) (by simp) (by simp)
    simp only [List.cons_append, List.nil_append] at emx
    rw [emx] at hv
    simp only [Option.getD_some] at hv
    have hvc : v = credentials := Option.some.inj hv.symm
    subst hvc
    obtain ⟨cv, hcv, hpcv⟩ := (requiredField_eq_some _ _ _ _).mp hcred
    rw [hcv, vStringArrayJ_some hpv, vStringArrayJ_some hpcv]
  · intro gInFields pInFields hgIn hpIn
    rcases (optionalField_eq_some fields "grants"
        vCredentialOfferGrantsDraft11J grants).mp hgrants with
      ⟨hnone, -⟩ | ⟨gv, g, hgl, hpg, hgr⟩
    · rw [hgIn] at hnone
      simp at hnone
    rw [hgIn] at hgl
    have hgv : gv = .obj gInFields := Option.some.inj hgl.symm
    subst hgv
    simp only [vCredentialOfferGrantsDraft11J, Option.bind_eq_some,
      Option.some.injEq] at hpg
    obtain ⟨ac11, hac11, pre11, hpre11, hgEq⟩ := hpg
    rcases (optionalField_eq_some gInFields preAuthorizedCodeGrantIdentifier
        vPreAuthorizedGrantDraft11J pre11).mp hpre11 with
      ⟨hnone, -⟩ | ⟨pv, p11, hpl, hpp, hpr⟩
    · rw [hpIn] at hnone
      simp at hnone
    rw [hpIn] at hpl
    have hpv : pv = .obj pInFields := Option.some.inj hpl.symm
    subst hpv
    simp only [vPreAuthorizedGrantDraft11J, Option.bind_eq_some,
      Option.some.injEq] at hpp
    obtain ⟨pac11, hpac11, pin11, hpin11, hpEq⟩ := hpp
    have emg := lookupField_out [("credential_issuer", some ci),
      ("credentials", some credentials)] [] fields
      ["credential_issuer", "credentials", "grants"] "grants" grants
      (by simp) (by simp) (by simp)
    simp only [List.cons_append, List.nil_append] at emg
    obtain ⟨tgFields, htg, hpreclause⟩ := hgrT _ (by rw [emg, hgr, ← hgEq])
    have egp := lookupField_out [("authorization_code", ac11)] [] gInFields
      ["authorization_code", preAuthorizedCodeGrantIdentifier]
      preAuthorizedCodeGrantIdentifier pre11
      (by simp [preAuthorizedCodeGrantIdentifier]) (by simp) (by simp)
    simp only [List.cons_append, List.nil_append] at egp
    obtain ⟨tpFields, htp, hdisj⟩ := hpreclause _ (by rw [egp, hpr, ← hpEq])
    have epin := lookupField_out [("pre-authorized_code", some pac11)] []
      pInFields ["pre-authorized_code", "user_pin_required"]
      "user_pin_required" pin11 (by simp) (by simp) (by simp)
    simp only [List.cons_append, List.nil_append] at epin
    have etx := lookupField_out_unknown
      [("pre-authorized_code", some pac11), ("user_pin_required", pin11)]
      pInFields ["pre-authorized_code", "user_pin_required"] "tx_code"
      (by simp) (by simp)
    rcases (optionalField_eq_some tFields "grants"
        vCredentialOfferGrantsJ gr14).mp hgr14 with
      ⟨hnone, -⟩ | ⟨gv14, g14, hgl14, hpg14, hgr14eq⟩
    · rw [htg] at hnone
      simp at hnone
    rw [htg] at hgl14
    have hgv14 : gv14 = .obj tgFields := Option.some.inj hgl14.symm
    subst hgv14
    simp only [vCredentialOfferGrantsJ, Option.bind_eq_some,
      Option.some.injEq] at hpg14
    obtain ⟨ac14, hac14, pre14, hpre14, hg14Eq⟩ := hpg14
    rcases (optionalField_eq_some tgFields preAuthorizedCodeGrantIdentifier
        vPreAuthorizedGrantJ pre14).mp hpre14 with
      ⟨hnone, -⟩ | ⟨pv14, p14, hpl14, hpp14, hpr14⟩
    · rw [htp] at hnone
      simp at hnone
    rw [htp] at hpl14
    have hpv14 : pv14 = .obj tpFields := Option.some.inj hpl14.symm
    subst hpv14
    simp only [vPreAuthorizedGrantJ, Option.bind_eq_some,
      Option.some.injEq] at hpp14
    obtain ⟨pac14, hpac14, txc14, htxc14, asrv14, hasrv14, hp14Eq⟩ := hpp14
    have eng := lookupField_out [("credential_issuer", some ci14),
      ("credential_configuration_ids", some ids14)] [] tFields
      ["credential_issuer", "credential_configuration_ids", "grants"]
      "grants" gr14 (by simp) (by simp) (by simp)
    simp only [List.cons_append, List.nil_append] at eng
    have eg14 := lookupField_out [("authorization_code", ac14)] [] tgFields
      ["authorization_code", preAuthorizedCodeGrantIdentifier]
      preAuthorizedCodeGrantIdentifier pre14
      (by simp [preAuthorizedCodeGrantIdentifier]) (by simp) (by simp)
    simp only [List.cons_append, List.nil_append] at eg14
    have ep14 := lookupField_out [("pre-authorized_code", some pac14)]
      [("authorization_server", asrv14)] tpFields
      ["pre-authorized_code", "tx_code", "authorization_server"]
      "tx_code" txc14 (by simp) (by simp) (by simp)
    simp only [List.cons_append, List.nil_append] at ep14
    rw [epin, etx] at hdisj
    refine ⟨_, _, (by rw [eng, hgr14eq, ← hg14Eq]),
      (by rw [eg14, hpr14, ← hp14Eq]), ?_, ?_⟩
    · intro hpinTrue
      rcases (optionalField_eq_some pInFields "user_pin_required"
          vBooleanJ pin11).mp hpin11 with ⟨hnone, -⟩ | ⟨bv, bw, hbv, hpbv, hbw⟩
      · rw [hpinTrue] at hnone
        simp at hnone
      rw [hpinTrue] at hbv
      have hbveq : bv = .bool true := Option.some.inj hbv.symm
      subst hbveq
      have hbweq : bw = .bool true := vBooleanJ_some hpbv
      subst hbweq
      rcases hdisj with ⟨-, htx⟩ | ⟨hfalse, -⟩
      · rcases (optionalField_eq_some tpFields "tx_code"
            vTxCodeJ txc14).mp htxc14 with ⟨hnone, -⟩ | ⟨tv, tw, htv, hptv, htw⟩
        · rw [htx] at hnone
          simp at hnone
        rw [htx] at htv
        have htveq : tv = .obj [("input_mode", Json.str "text")] :=
          Option.some.inj htv.symm
        subst htveq
        have hcomp : vTxCodeJ (.obj [("input_mode", Json.str "text")]) =
            some (.obj [("input_mode", Json.str "text")]) := rfl
        rw [hcomp] at hptv
        have htweq : tw = .obj [("input_mode", Json.str "text")] :=
          Option.some.inj hptv.symm
        rw [ep14, htw, htweq]
      · rw [hbw] at hfalse
        simp [userPinTruthy] at hfalse
    · intro hpinNot
      have hpf : userPinTruthy pin11 = false := by
        rcases (optionalField_eq_some pInFields "user_pin_required"
            vBooleanJ pin11).mp hpin11 with ⟨-, hpnone⟩ | ⟨bv, bw, hbv, hpbv, hbw⟩
        · rw [hpnone]
          rfl
        · have hbweq : bw = bv := vBooleanJ_some hpbv
          subst hbweq
          cases bw with
          | bool b =>
            cases b with
            | true => exact absurd hbv hpinNot
            | false =>
              rw [hbw]
              rfl
          | null => simp [vBooleanJ] at hpbv
          | num n => simp [vBooleanJ] at hpbv
          | str s => simp [vBooleanJ] at hpbv
          | arr es => simp [vBooleanJ] at hpbv
          | obj fs => simp [vBooleanJ] at hpbv
      rcases hdisj with ⟨htrue, -⟩ | ⟨-, htx⟩
      · rw [hpf] at htrue
        simp at htrue
      · rcases (optionalField_eq_some tpFields "tx_code"
            vTxCodeJ txc14).mp htxc14 with ⟨hnone, htxcnone⟩ | ⟨tv, tw, htv, hptv, htw⟩
        · have hin : lookupField pInFields "tx_code" = none := by
            rw [← htx]
            exact hnone
          rw [ep14, htxcnone, hin]
        · have hin : lookupField pInFields "tx_code" = some tv := by
            rw [← htx]
            exact htv
          rw [ep14, htw, hin]
          simp

/-- C3 witness: on a concrete accepted draft 11 offer the credentials
array becomes credential_configuration_ids, by the amended theorem. -/
theorem C3_draft11_to_14_normalization_witness :
    lookupField [("credential_issuer", Json.str "https://issuer.example"),
      ("credential_configuration_ids", Json.arr [Json.str "b"]),
      ("grants", Json.obj [(preAuthorizedCodeGrantIdentifier,
        Json.obj [("pre-authorized_code", Json.str "p2"),
          ("tx_code", Json.obj [("input_mode", Json.str "text")])])])]
      "credential_configuration_ids" =
    lookupField [("credential_issuer", Json.str "https://issuer.example"),
      ("credentials", Json.arr [Json.str "b"]),
      ("grants", Json.obj [(preAuthorizedCodeGrantIdentifier,
        Json.obj [("pre-authorized_code", Json.str "p2"),
          ("user_pin_required", Json.bool true)])])] "credentials" := by
  obtain ⟨nF, hEq, hccids, -⟩ := C3_draft11_to_14_normalization
    [("credential_issuer", Json.str "https://issuer.example"),
      ("credentials", Json.arr [Json.str "b"]),
      ("grants", Json.obj [(preAuthorizedCodeGrantIdentifier,
        Json.obj [("pre-authorized_code", Json.str "p2"),
          ("user_pin_required", Json.bool true)])])]
    (.obj [("credential_issuer", Json.str "https://issuer.example"),
      ("credential_configuration_ids", Json.arr [Json.str "b"]),
      ("grants", Json.obj [(preAuthorizedCodeGrantIdentifier,
        Json.obj [("pre-authorized_code", Json.str "p2"),
          ("tx_code", Json.obj [("input_mode", Json.str "text")])])])]) rfl
  simp only [Json.obj.injEq] at hEq
  subst hEq
  exact hccids

/-- C4 counterexample: a header carrying only alg and typ is accepted by
the proof type header validator although none of kid, jwk, x5c is
present, refuting the claim that exactly one of them must be present in
every accepted header. -/
theorem C4_counterexample :
    vCredentialRequestJwtProofTypeHeaderJ
      (.obj [("alg", .str "ES256"), ("typ", .str "openid4vci-proof+jwt")]) =
      some (.obj [("alg", .str "ES256"), ("typ", .str "openid4vci-proof+jwt")])
    ∧ lookupField [("alg", Json.str "ES256"),
        ("typ", Json.str "openid4vci-proof+jwt")] "kid" = none
    ∧ lookupField [("alg", Json.str "ES256"),
        ("typ", Json.str "openid4vci-proof+jwt")] "jwk" = none
    ∧ lookupField [("alg", Json.str "ES256"),
        ("typ", Json.str "openid4vci-proof+jwt")] "x5c" = none :=
  ⟨rfl, rfl, rfl, rfl⟩

/-- C4 (amended): every header accepted by the proof type header
validator has typ openid4vci-proof+jwt; a header carrying both jwk and
kid is rejected; a header with trust_chain and a present non-empty kid
is rejected; a header without typ is rejected. (The validator does not
require any of kid, jwk, x5c, and does not constrain x5c against the
other two.) -/
theorem C4_proof_type_header_validation (fields : List (String × Json)) :
    (∀ out, vCredentialRequestJwtProofTypeHeaderJ (.obj fields) = some out →
      lookupField fields "typ" = some (.str "openid4vci-proof+jwt"))
    ∧ (∀ jv kv, lookupField fields "jwk" = some jv →
      lookupField fields "kid" = some kv →
      vCredentialRequestJwtProofTypeHeaderJ (.obj fields) = none)
    ∧ (∀ tv s, lookupField fields "trust_chain" = some tv →
      lookupField fields "kid" = some (.str s) → ¬ s = "" →
      vCredentialRequestJwtProofTypeHeaderJ (.obj fields) = none)
    ∧ (lookupField fields "typ" = none →
      vCredentialRequestJwtProofTypeHeaderJ (.obj fields) = none) := by
  refine ⟨?_, ?_, ?_, ?_⟩
  · intro out hp
    simp only [vCredentialRequestJwtProofTypeHeaderJ, Option.bind_eq_some] at hp
    obtain ⟨alg, halg, typ, htyp, rest⟩ := hp
    obtain ⟨tv, htv, hptv⟩ := (requiredField_eq_some _ _ _ _).mp htyp
    obtain ⟨-, htveq⟩ := vLiteralJ_some hptv
    rw [htveq] at htv
    exact htv
  · intro jv kv hjv hkv
    cases hparse : vCredentialRequestJwtProofTypeHeaderJ (.obj fields) with
    | none => rfl
    | some out =>
      exfalso
      simp only [vCredentialRequestJwtProofTypeHeaderJ, Option.bind_eq_some] at hparse
      obtain ⟨alg, halg, typ, htyp, kid, hkid, jwk, hjwk, x5c, hx5c, tc, htc,
        ka, hka, hfinal⟩ := hparse
      rcases (optionalField_eq_some fields "kid" vStringJ kid).mp hkid with
        ⟨hnone, -⟩ | ⟨v, w, hv, -, hkidw⟩
      · rw [hkv] at hnone
        simp at hnone
      rcases (optionalField_eq_some fields "jwk" vJwkJ jwk).mp hjwk with
        ⟨hnone, -⟩ | ⟨v2, w2, hv2, -, hjwkw⟩
      · rw [hjv] at hnone
        simp at hnone
      rw [hkidw, hjwkw] at hfinal
      simp at hfinal
  · intro tv s htcIn hkidIn hs
    cases hparse : vCredentialRequestJwtProofTypeHeaderJ (.obj fields) with
    | none => rfl
    | some out =>
      exfalso
      simp only [vCredentialRequestJwtProofTypeHeaderJ, Option.bind_eq_some] at hparse
      obtain ⟨alg, halg, typ, htyp, kid, hkid, jwk, hjwk, x5c, hx5c, tc, htc,
        ka, hka, hfinal⟩ := hparse
      rcases (optionalField_eq_some fields "kid" vStringJ kid).mp hkid with
        ⟨hnone, -⟩ | ⟨v, w, hv, hpv, hkidw⟩
      · rw [hkidIn] at hnone
        simp at hnone
      rw [hkidIn] at hv
      have hveq : v = .str s := Option.some.inj hv.symm
      subst hveq
      have hweq : w = .str s := vStringJ_some hpv
      subst hweq
      rcases (optionalField_eq_some fields "trust_chain" vStringArrayJ tc).mp htc with
        ⟨hnone, -⟩ | ⟨v3, w3, hv3, -, htcw⟩
      · rw [htcIn] at hnone
        simp at hnone
      rw [hkidw, htcw] at hfinal
      split at hfinal
      · simp at hfinal
      · split at hfinal
        · simp at hfinal
        · rename_i hc2
          exact hc2 ⟨rfl, by simp [kidTruthy, hs]⟩
  · intro htypIn
    cases hparse : vCredentialRequestJwtProofTypeHeaderJ (.obj fields) with
    | none => rfl
    | some out =>
      exfalso
      simp only [vCredentialRequestJwtProofTypeHeaderJ, Option.bind_eq_some] at hparse
      obtain ⟨alg, halg, typ, htyp, rest⟩ := hparse
      obtain ⟨tv, htv, -⟩ := (requiredField_eq_some _ _ _ _).mp htyp
      rw [htypIn] at htv
      simp at htv

/-- C4 witness: a concrete header with both jwk and kid is rejected, by
the amended theorem. -/
theorem C4_proof_type_header_validation_witness :
    vCredentialRequestJwtProofTypeHeaderJ
      (.obj [("alg", Json.str "ES256"),
        ("typ", Json.str "openid4vci-proof+jwt"),
        ("kid", Json.str "did:x"), ("jwk", Json.obj [])]) = none :=
  (C4_proof_type_header_validation
      [("alg", Json.str "ES256"), ("typ", Json.str "openid4vci-proof+jwt"),
        ("kid", Json.str "did:x"), ("jwk", Json.obj [])]).2.1
    (Json.obj []) (Json.str "did:x") rfl rfl

/-- C1 counterexample: with the authorization challenge endpoint present
and the challenge request succeeding with authorization_code C, the
function does not short-circuit: it returns the Oauth2Redirect flow with
a built authorization request URL (the result type has no
AuthorizationChallenge flow and the successful response is discarded). -/
theorem C1_counterexample :
    Oid4vciClient.initiateAuthorization ⟨fun _ => "", ""⟩
      ⟨"https://issuer.example", ["cfg"], some ⟨some ⟨none, none⟩, none⟩⟩
      ⟨"https://issuer.example",
        [⟨"https://as.example", "https://as.example/authorize",
          "https://as.example/token", some "https://as.example/challenge",
          none, none, none, none⟩]⟩
      "cid" none none none (.ok ⟨"C"⟩) (.error (.other "par not attempted")) =
    .ok (.oauth2Redirect "https://as.example/authorize?response_type=code&client_id=cid"
      none "https://as.example") := by
  rfl

/-- C1 (amended): when the authorization server metadata contains an
authorization_challenge_endpoint and the challenge request succeeds, the
successful response (with its authorization_code) is discarded:
Oauth2Client.initiateAuthorization falls through to
createAuthorizationRequestUrl, and Oid4vciClient.initiateAuthorization
wraps the resulting URL as the Oauth2Redirect flow. -/
theorem C1_challenge_success_falls_through
    (callbacks : ClientCallbacks) (metadata : AuthorizationServerMetadata)
    (clientId : String) (redirectUri scope pkceCodeVerifier : Option String)
    (response : AuthorizationChallengeSuccessResponse)
    (parOutcome : Except ClientError String) (e : String)
    (hend : metadata.authorization_challenge_endpoint = some e) :
    Oauth2Client.initiateAuthorization callbacks metadata clientId redirectUri
        scope pkceCodeVerifier (.ok response) parOutcome =
      createAuthorizationRequestUrl callbacks metadata clientId redirectUri scope
        ((initiatePkce callbacks metadata pkceCodeVerifier).map Pkce.codeVerifier)
        parOutcome
    ∧ (∀ (credentialOffer : CredentialOfferObject)
        (issuerMetadata : IssuerMetadataResult)
        (acGrant : AuthorizationCodeGrant) (result : AuthorizationRequestUrlResult),
      credentialOffer.grants.bind CredentialOfferGrants.authorization_code = some acGrant →
      determineAuthorizationServerForCredentialOffer issuerMetadata
        acGrant.authorization_server = .ok metadata.issuer →
      getAuthorizationServerMetadataFromList issuerMetadata.authorizationServers
        metadata.issuer = .ok metadata →
      Oauth2Client.initiateAuthorization callbacks metadata clientId redirectUri
        scope pkceCodeVerifier (.ok response) parOutcome = .ok result →
      Oid4vciClient.initiateAuthorization callbacks credentialOffer issuerMetadata
          clientId redirectUri scope pkceCodeVerifier (.ok response) parOutcome =
        .ok (.oauth2Redirect result.authorizationRequestUrl result.pkce
          metadata.issuer)) := by
  constructor
  · simp only [Oauth2Client.initiateAuthorization, hend]
  · intro credentialOffer issuerMetadata acGrant result h1 h2 h3 h4
    simp [Oid4vciClient.initiateAuthorization, h1, h2, h3, h4]

/-- C1 witness: the amended behaviour at a concrete input, applying the
theorem with both conjuncts discharged concretely. -/
theorem C1_challenge_success_falls_through_witness :
    Oid4vciClient.initiateAuthorization ⟨fun _ => "", "gen"⟩
      ⟨"https://issuer.example", ["cfg"], some ⟨some ⟨none, none⟩, none⟩⟩
      ⟨"https://issuer.example",
        [⟨"https://as.example", "https://as.example/authorize",
          "https://as.example/token", some "https://as.example/challenge",
          none, none, none, none⟩]⟩
      "cid2" none none none (.ok ⟨"C2"⟩) (.error (.other "np")) =
    .ok (.oauth2Redirect "https://as.example/authorize?response_type=code&client_id=cid2"
      none "https://as.example") :=
  (C1_challenge_success_falls_through ⟨fun _ => "", "gen"⟩
      ⟨"https://as.example", "https://as.example/authorize",
        "https://as.example/token", some "https://as.example/challenge",
        none, none, none, none⟩
      "cid2" none none none ⟨"C2"⟩ (.error (.other "np"))
      "https://as.example/challenge" rfl).2
    ⟨"https://issuer.example", ["cfg"], some ⟨some ⟨none, none⟩, none⟩⟩
    ⟨"https://issuer.example",
      [⟨"https://as.example", "https://as.example/authorize",
        "https://as.example/token", some "https://as.example/challenge",
        none, none, none, none⟩]⟩
    ⟨none, none⟩
    ⟨"https://as.example/authorize?response_type=code&client_id=cid2", none⟩
    rfl rfl rfl rfl

/-- C5 counterexample: a redirect_to_web challenge error carrying the
(empty) request_uri falls through to the plain authorization request URL
instead of returning the request_uri based URL the claim requires. -/
theorem C5_counterexample :
    (Oauth2Client.initiateAuthorization ⟨fun _ => "", ""⟩
      ⟨"https://as.example", "https://as.example/authorize",
        "https://as.example/token", some "https://as.example/challenge",
        none, none, none, none⟩
      "cid" none none none
      (.error (.authorizationChallenge ⟨"redirect_to_web", none, some "", none, none⟩))
      (.error (.other "par not attempted")) =
      .ok ⟨"https://as.example/authorize?response_type=code&client_id=cid", none⟩)
    ∧ ¬ ("https://as.example/authorize?response_type=code&client_id=cid" =
        "https://as.example/authorize?request_uri=&client_id=cid") :=
  ⟨rfl, by decide⟩

/-- C5 (amended): with the challenge endpoint present, a redirect_to_web
challenge error with a non-empty request_uri yields the
authorization_endpoint URL with request_uri and client_id query
parameters together with the pkce value; a redirect_to_web error whose
request_uri is absent or empty falls through to
createAuthorizationRequestUrl (PAR or plain); any other error is
rethrown unchanged. -/
theorem C5_redirect_to_web_handling
    (callbacks : ClientCallbacks) (metadata : AuthorizationServerMetadata)
    (clientId : String) (redirectUri scope pkceCodeVerifier : Option String)
    (parOutcome : Except ClientError String) (e : String)
    (hend : metadata.authorization_challenge_endpoint = some e) :
    (∀ (er : AuthorizationChallengeErrorResponse) (requestUri : String),
      er.error = "redirect_to_web" → er.request_uri = some requestUri →
      ¬ requestUri = "" →
      Oauth2Client.initiateAuthorization callbacks metadata clientId redirectUri
          scope pkceCodeVerifier (.error (.authorizationChallenge er)) parOutcome =
        .ok ⟨metadata.authorization_endpoint ++ "?" ++
          searchParamsToString (objectToQueryParams
            [("request_uri", some requestUri), ("client_id", some clientId)]),
          initiatePkce callbacks metadata pkceCodeVerifier⟩)
    ∧ (∀ er : AuthorizationChallengeErrorResponse,
      er.error = "redirect_to_web" →
      (er.request_uri = none ∨ er.request_uri = some "") →
      Oauth2Client.initiateAuthorization callbacks metadata clientId redirectUri
          scope pkceCodeVerifier (.error (.authorizationChallenge er)) parOutcome =
        createAuthorizationRequestUrl callbacks metadata clientId redirectUri scope
          ((initiatePkce callbacks metadata pkceCodeVerifier).map Pkce.codeVerifier)
          parOutcome)
    ∧ (∀ err : ClientError,
      (∀ er, err = ClientError.authorizationChallenge er →
        ¬ er.error = "redirect_to_web") →
      Oauth2Client.initiateAuthorization callbacks metadata clientId redirectUri
          scope pkceCodeVerifier (.error err) parOutcome = .error err) := by
  refine ⟨?_, ?_, ?_⟩
  · intro er requestUri h1 h2 h3
    simp [Oauth2Client.initiateAuthorization, hend, h1, h2, h3]
  · intro er h1 h2
    cases h2 with
    | inl h2 => simp [Oauth2Client.initiateAuthorization, hend, h1, h2]
    | inr h2 => simp [Oauth2Client.initiateAuthorization, hend, h1, h2]
  · intro err hner
    cases err with
    | authorizationChallenge er =>
      have h := hner er rfl
      simp [Oauth2Client.initiateAuthorization, hend, h]
    | oauth2 m => simp [Oauth2Client.initiateAuthorization, hend]
    | other m => simp [Oauth2Client.initiateAuthorization, hend]

/-- C5 witness: the redirect_to_web with non-empty request_uri case at a
concrete input, applying the theorem with the hypotheses discharged. -/
theorem C5_redirect_to_web_handling_witness :
    Oauth2Client.initiateAuthorization ⟨fun _ => "", ""⟩
      ⟨"https://as.example", "https://as.example/authorize",
        "https://as.example/token", some "https://as.example/challenge",
        none, none, none, none⟩
      "cid" none none none
      (.error (.authorizationChallenge
        ⟨"redirect_to_web", none, some "urn:x", none, none⟩))
      (.error (.other "par not attempted")) =
    .ok ⟨"https://as.example/authorize?request_uri=urn%3Ax&client_id=cid", none⟩ := by
  have h := (C5_redirect_to_web_handling ⟨fun _ => "", ""⟩
    ⟨"https://as.example", "https://as.example/authorize",
      "https://as.example/token", some "https://as.example/challenge",
      none, none, none, none⟩
    "cid" none none none (.error (.other "par not attempted"))
    "https://as.example/challenge" rfl).1
    ⟨"redirect_to_web", none, some "urn:x", none, none⟩ "urn:x" rfl rfl (by decide)
  rw [h]
  rfl

/-- C6 counterexample: an insufficient_authorization challenge error
whose response carries presentation (the empty string) and auth_session
S is rethrown instead of producing the PresentationDuringIssuance flow,
because the source tests JavaScript truthiness of the fields. -/
theorem C6_counterexample :
    Oid4vciClient.initiateAuthorization ⟨fun _ => "", ""⟩
      ⟨"https://issuer.example", ["cfg"], some ⟨some ⟨none, none⟩, none⟩⟩
      ⟨"https://issuer.example",
        [⟨"https://as.example", "https://as.example/authorize",
          "https://as.example/token", some "https://as.example/challenge",
          none, none, none, none⟩]⟩
      "cid" none none none
      (.error (.authorizationChallenge
        ⟨"insufficient_authorization", none, none, some "", some "S"⟩))
      (.error (.other "par not attempted")) =
    .error (.authorizationChallenge
      ⟨"insufficient_authorization", none, none, some "", some "S"⟩) := by
  rfl

/-- C6 (amended): when the challenge request fails with
insufficient_authorization and the response carries a non-empty
presentation and a non-empty auth_session, Oid4vciClient returns the
PresentationDuringIssuance flow with oid4vpRequestUrl and authSession
equal to those values; every other error of the delegated call
propagates to the caller. -/
theorem C6_insufficient_authorization_handling
    (callbacks : ClientCallbacks) (credentialOffer : CredentialOfferObject)
    (issuerMetadata : IssuerMetadataResult) (clientId : String)
    (redirectUri scope pkceCodeVerifier : Option String)
    (parOutcome : Except ClientError String)
    (acGrant : AuthorizationCodeGrant) (authorizationServer : String)
    (m : AuthorizationServerMetadata) (e : String)
    (h1 : credentialOffer.grants.bind CredentialOfferGrants.authorization_code = some acGrant)
    (h2 : determineAuthorizationServerForCredentialOffer issuerMetadata
      acGrant.authorization_server = .ok authorizationServer)
    (h3 : getAuthorizationServerMetadataFromList issuerMetadata.authorizationServers
      authorizationServer = .ok m)
    (h4 : m.authorization_challenge_endpoint = some e) :
    (∀ (er : AuthorizationChallengeErrorResponse) (presentation authSession : String),
      er.error = "insufficient_authorization" →
      er.presentation = some presentation → ¬ presentation = "" →
      er.auth_session = some authSession → ¬ authSession = "" →
      Oid4vciClient.initiateAuthorization callbacks credentialOffer issuerMetadata
          clientId redirectUri scope pkceCodeVerifier
          (.error (.authorizationChallenge er)) parOutcome =
        .ok (.presentationDuringIssuance presentation authSession m.issuer))
    ∧ (∀ (challengeOutcome : Except ClientError AuthorizationChallengeSuccessResponse)
        (err : ClientError),
      Oauth2Client.initiateAuthorization callbacks m clientId redirectUri scope
        pkceCodeVerifier challengeOutcome parOutcome = .error err →
      (∀ er, err = ClientError.authorizationChallenge er →
        ¬ (er.error = "insufficient_authorization" ∧
          truthyStr er.presentation = true ∧ truthyStr er.auth_session = true)) →
      Oid4vciClient.initiateAuthorization callbacks credentialOffer issuerMetadata
          clientId redirectUri scope pkceCodeVerifier challengeOutcome parOutcome =
        .error err) := by
  constructor
  · intro er presentation authSession her hp hpne hs hsne
    have hlit : ¬ ("insufficient_authorization" = "redirect_to_web") := by decide
    simp [Oid4vciClient.initiateAuthorization, h1, h2, h3,
      Oauth2Client.initiateAuthorization, h4, her, hlit, hp, hs, hpne, hsne]
  · intro challengeOutcome err hcall hner
    simp only [Oid4vciClient.initiateAuthorization, h1, h2, h3, hcall]
    cases err with
    | authorizationChallenge er =>
      have h := hner er rfl
      by_cases hins : er.error = "insufficient_authorization"
      · simp only [hins, true_and] at h
        cases hp : er.presentation with
        | none => simp [hins, hp]
        | some presentation =>
          cases hs : er.auth_session with
          | none => simp [hins, hp, hs]
          | some authSession =>
            rw [hp, hs] at h
            simp only [truthyStr, decide_eq_true_eq, not_and, not_not] at h
            by_cases hpe : presentation = ""
            · simp [hins, hp, hs, hpe]
            · simp [hins, hp, hs, h hpe]
      · simp [hins]
    | oauth2 msg => rfl
    | other msg => rfl

/-- C6 witness: the PresentationDuringIssuance case at a concrete input,
applying the theorem with every hypothesis discharged. -/
theorem C6_insufficient_authorization_handling_witness :
    Oid4vciClient.initiateAuthorization ⟨fun _ => "", ""⟩
      ⟨"https://issuer.example", ["cfg"], some ⟨some ⟨none, none⟩, none⟩⟩
      ⟨"https://issuer.example",
        [⟨"https://as.example", "https://as.example/authorize",
          "https://as.example/token", some "https://as.example/challenge",
          none, none, none, none⟩]⟩
      "cid" none none none
      (.error (.authorizationChallenge
        ⟨"insufficient_authorization", none, none, some "openid4vp://rq", some "S1"⟩))
      (.error (.other "par not attempted")) =
    .ok (.presentationDuringIssuance "openid4vp://rq" "S1" "https://as.example") :=
  (C6_insufficient_authorization_handling ⟨fun _ => "", ""⟩
      ⟨"https://issuer.example", ["cfg"], some ⟨some ⟨none, none⟩, none⟩⟩
      ⟨"https://issuer.example",
        [⟨"https://as.example", "https://as.example/authorize",
          "https://as.example/token", some "https://as.example/challenge",
          none, none, none, none⟩]⟩
      "cid" none none none (.error (.other "par not attempted"))
      ⟨none, none⟩ "https://as.example"
      ⟨"https://as.example", "https://as.example/authorize",
        "https://as.example/token", some "https://as.example/challenge",
        none, none, none, none⟩
      "https://as.example/challenge" rfl rfl rfl rfl).1
    ⟨"insufficient_authorization", none, none, some "openid4vp://rq", some "S1"⟩
    "openid4vp://rq" "S1" rfl rfl (by decide) rfl (by decide)

/-- C8 counterexample: for pre-authorized_code abc without tx_code the
built token request body is not the claimed string (grant_type first):
the source puts pre-authorized_code first, as the repository token
endpoint test asserts. -/
theorem C8_counterexample :
    ¬ tokenRequestBodyPreAuthorized "abc" none =
      "grant_type=urn%3Aietf%3Aparams%3Aoauth%3Agrant-type%3Apre-authorized_code&pre-authorized_code=abc" := by
  decide

/-- C8 (amended): for a pre-authorized code grant with
pre-authorized_code abc, no tx_code and no DPoP, the form encoded token
request body is exactly
pre-authorized_code=abc&grant_type=urn%3Aietf%3Aparams%3Aoauth%3Agrant-type%3Apre-authorized_code
(pre-authorized_code first, then grant_type). -/
theorem C8_token_request_body_abc :
    tokenRequestBodyPreAuthorized "abc" none =
      "pre-authorized_code=abc&grant_type=urn%3Aietf%3Aparams%3Aoauth%3Agrant-type%3Apre-authorized_code" := by
  decide

/-- C10 counterexample: with a tx_code descriptor declared in the grant
and the txCode argument provided as the empty string, the function
throws (JavaScript falsiness) although the claim says it proceeds to
send the token request. -/
theorem C10_counterexample :
    Oid4vciClient.retrievePreAuthorizedCodeAccessTokenFromOffer
      ⟨"https://issuer.example", ["cfg"],
        some ⟨none, some ⟨"pac", some ⟨some "numeric", none, none⟩, none⟩⟩⟩
      ⟨"https://issuer.example",
        [⟨"https://as.example", "https://as.example/authorize",
          "https://as.example/token", none, none, none, none, none⟩]⟩
      (some "") =
    .error (.oauth2 "Retrieving access token requires a tx_code in the request, but the txCode parameter was not provided.") := by
  rfl

/-- C10 (amended): retrievePreAuthorizedCodeAccessTokenFromOffer throws
an Oauth2Error, without issuing any token request, when the offer lacks
the pre-authorized code grant, and when the grant declares a tx_code
descriptor but the txCode argument is absent or empty; otherwise it
proceeds: if the authorization server is determined from the offer and
issuer metadata it sends the token request with the grant's
pre-authorized code, and a determination failure propagates. -/
theorem C10_retrieve_pre_authorized_guards
    (credentialOffer : CredentialOfferObject)
    (issuerMetadata : IssuerMetadataResult) (txCode : Option String) :
    (credentialOffer.grants.bind CredentialOfferGrants.preAuthorizedCode = none →
      Oid4vciClient.retrievePreAuthorizedCodeAccessTokenFromOffer credentialOffer
          issuerMetadata txCode =
        .error (.oauth2 "The credential offer does not contain the pre-authorized code grant."))
    ∧ (∀ grant : PreAuthorizedCodeGrant,
      credentialOffer.grants.bind CredentialOfferGrants.preAuthorizedCode = some grant →
      grant.tx_code.isSome = true → truthyStr txCode = false →
      Oid4vciClient.retrievePreAuthorizedCodeAccessTokenFromOffer credentialOffer
          issuerMetadata txCode =
        .error (.oauth2 "Retrieving access token requires a tx_code in the request, but the txCode parameter was not provided."))
    ∧ (∀ (grant : PreAuthorizedCodeGrant) (authorizationServer : String)
        (m : AuthorizationServerMetadata),
      credentialOffer.grants.bind CredentialOfferGrants.preAuthorizedCode = some grant →
      ¬ (grant.tx_code.isSome = true ∧ truthyStr txCode = false) →
      determineAuthorizationServerForCredentialOffer issuerMetadata
        grant.authorization_server = .ok authorizationServer →
      getAuthorizationServerMetadataFromList issuerMetadata.authorizationServers
        authorizationServer = .ok m →
      Oid4vciClient.retrievePreAuthorizedCodeAccessTokenFromOffer credentialOffer
          issuerMetadata txCode =
        .ok ⟨authorizationServer, m.token_endpoint, grant.preAuthorizedCode, txCode,
          tokenRequestBodyPreAuthorized grant.preAuthorizedCode txCode⟩)
    ∧ (∀ (grant : PreAuthorizedCodeGrant) (err : ClientError),
      credentialOffer.grants.bind CredentialOfferGrants.preAuthorizedCode = some grant →
      ¬ (grant.tx_code.isSome = true ∧ truthyStr txCode = false) →
      determineAuthorizationServerForCredentialOffer issuerMetadata
        grant.authorization_server = .error err →
      Oid4vciClient.retrievePreAuthorizedCodeAccessTokenFromOffer credentialOffer
          issuerMetadata txCode = .error err) := by
  refine ⟨?_, ?_, ?_, ?_⟩
  · intro h
    simp [Oid4vciClient.retrievePreAuthorizedCodeAccessTokenFromOffer, h]
  · intro grant h h1 h2
    simp [Oid4vciClient.retrievePreAuthorizedCodeAccessTokenFromOffer, h, h1, h2]
  · intro grant authorizationServer m h h1 h2 h3
    simp [Oid4vciClient.retrievePreAuthorizedCodeAccessTokenFromOffer, h, h1, h2, h3]
  · intro grant err h h1 h2
    simp [Oid4vciClient.retrievePreAuthorizedCodeAccessTokenFromOffer, h, h1, h2]

/-- C10 witness: the happy path at a concrete input, applying the
theorem with the hypotheses discharged. -/
theorem C10_retrieve_pre_authorized_guards_witness :
    Oid4vciClient.retrievePreAuthorizedCodeAccessTokenFromOffer
      ⟨"https://issuer.example", ["cfg"], some ⟨none, some ⟨"code123", none, none⟩⟩⟩
      ⟨"https://issuer.example",
        [⟨"https://as2.example", "https://as2.example/authorize",
          "https://as2.example/token", none, none, none, none, none⟩]⟩
      none =
    .ok ⟨"https://as2.example", "https://as2.example/token", "code123", none,
      tokenRequestBodyPreAuthorized "code123" none⟩ :=
  (C10_retrieve_pre_authorized_guards
      ⟨"https://issuer.example", ["cfg"], some ⟨none, some ⟨"code123", none, none⟩⟩⟩
      ⟨"https://issuer.example",
        [⟨"https://as2.example", "https://as2.example/authorize",
          "https://as2.example/token", none, none, none, none, none⟩]⟩
      none).2.2.1
    ⟨"code123", none, none⟩ "https://as2.example"
    ⟨"https://as2.example", "https://as2.example/authorize",
      "https://as2.example/token", none, none, none, none, none⟩
    rfl (by decide) rfl rfl

/-- C9: the access token response returned by
Oauth2AuthorizationServer.createAccessToken has token_type DPoP exactly
when a dpopJwk option was supplied, and token_type Bearer otherwise. -/
theorem C9_createAccessToken_token_type (signedAccessTokenJwt : String)
    (options : CreateAccessTokenOptions) :
    ((createAccessToken signedAccessTokenJwt options).token_type = "DPoP" ↔
      options.dpopJwk.isSome = true) ∧
    ((createAccessToken signedAccessTokenJwt options).token_type = "Bearer" ↔
      options.dpopJwk = none) := by
  cases h : options.dpopJwk with
  | none => simp [createAccessToken, createAccessTokenResponse, h]
  | some jwk => simp [createAccessToken, createAccessTokenResponse, h]

end Oid4vc

